import Mathlib

set_option maxRecDepth 100000
set_option maxHeartbeats 1000000

/-!
Verification development for the DocuFetch fetch/normalize/deduplicate
pipeline.  The definitions below are a shallow embedding of the Python
sources `src/sources/academic.py`, `src/sources/news.py` and
`src/sources/manager.py`.  External collaborators (HTTP APIs, the clock,
the filesystem) are modelled as explicit oracles in an `Env` record, and
all on-disk side effects (dedup records, metadata files, downloaded
artifacts, issued network requests) are threaded through an explicit `FS`
state.
-/

namespace DocuFetch

/-! ## String helpers

Models of the exact Python string operations used by the code.  Python
`str.lower` is modelled ASCII-only (all strings appearing in the claims
and witnesses are ASCII). -/

/-- Model of Python `str.lower` (ASCII case folding). -/
def pyLower (s : String) : String := String.mk (s.data.map Char.toLower)

/-- Model of Python `str.split(sep)` for a one-character separator:
splits on every occurrence, keeping empty parts. -/
def splitChAux (c : Char) : List Char → List Char → List (List Char)
  | [], acc => [acc.reverse]
  | x :: xs, acc =>
      if x = c then acc.reverse :: splitChAux c xs []
      else splitChAux c xs (x :: acc)

/-- Python `s.split(c)` for a single-character separator `c`. -/
def pySplit (s : String) (c : Char) : List String :=
  (splitChAux c s.data []).map String.mk

/-- Python `s.replace(a, b)` for one-character `a`, `b` (the only use in
the code is `doi.replace("/", "_")`). -/
def pyReplace (s : String) (a b : Char) : String :=
  String.mk (s.data.map (fun ch => if ch = a then b else ch))

/-- Python `s.strip()`; only space characters occur in the modelled code. -/
def pyStrip (s : String) : String :=
  String.mk (((s.data.dropWhile (· = ' ')).reverse.dropWhile (· = ' ')).reverse)

/-- Python `s[:n]` on character strings. -/
def pyTake (s : String) (n : Nat) : String := String.mk (s.data.take n)

/-- Whether `pat` occurs as a contiguous sublist at the head of `l`. -/
def startsWith : List Char → List Char → Bool
  | [], _ => true
  | _ :: _, [] => false
  | p :: ps, x :: xs => p = x && startsWith ps xs

/-- Model of the Python `in` operator on strings: `needle in hay`. -/
def strContains (hay needle : String) : Bool :=
  go needle.data hay.data
where
  go (n : List Char) : List Char → Bool
    | [] => startsWith n []
    | x :: xs => startsWith n (x :: xs) || go n xs

/-- UTF-8 encoding of one character, modelling Python `str.encode()`. -/
def utf8Bytes (c : Char) : List Nat :=
  let n := c.toNat
  if n < 128 then [n]
  else if n < 2048 then [192 ||| (n >>> 6), 128 ||| (n &&& 63)]
  else if n < 65536 then
    [224 ||| (n >>> 12), 128 ||| ((n >>> 6) &&& 63), 128 ||| (n &&& 63)]
  else
    [240 ||| (n >>> 18), 128 ||| ((n >>> 12) &&& 63),
     128 ||| ((n >>> 6) &&& 63), 128 ||| (n &&& 63)]

/-- Python `s.encode()`: the UTF-8 bytes of a string. -/
def strBytes (s : String) : List Nat := s.data.flatMap utf8Bytes

/-! ## MD5

A byte-level model of `hashlib.md5(...).hexdigest()`.  32-bit machine
arithmetic is represented on `Nat` with explicit `% 2^32`. -/

namespace MD5

/-- The 32-bit mask modulus. -/
def m32 : Nat := 4294967296

/-- Left rotation of a 32-bit word. -/
def rotl (x n : Nat) : Nat := ((x <<< n) ||| (x >>> (32 - n))) % m32

/-- The MD5 sine-derived round constants. -/
def kTable : List Nat :=
  [0xd76aa478, 0xe8c7b756, 0x242070db, 0xc1bdceee,
   0xf57c0faf, 0x4787c62a, 0xa8304613, 0xfd469501,
   0x698098d8, 0x8b44f7af, 0xffff5bb1, 0x895cd7be,
   0x6b901122, 0xfd987193, 0xa679438e, 0x49b40821,
   0xf61e2562, 0xc040b340, 0x265e5a51, 0xe9b6c7aa,
   0xd62f105d, 0x02441453, 0xd8a1e681, 0xe7d3fbc8,
   0x21e1cde6, 0xc33707d6, 0xf4d50d87, 0x455a14ed,
   0xa9e3e905, 0xfcefa3f8, 0x676f02d9, 0x8d2a4c8a,
   0xfffa3942, 0x8771f681, 0x6d9d6122, 0xfde5380c,
   0xa4beea44, 0x4bdecfa9, 0xf6bb4b60, 0xbebfbc70,
   0x289b7ec6, 0xeaa127fa, 0xd4ef3085, 0x04881d05,
   0xd9d4d039, 0xe6db99e5, 0x1fa27cf8, 0xc4ac5665,
   0xf4292244, 0x432aff97, 0xab9423a7, 0xfc93a039,
   0x655b59c3, 0x8f0ccc92, 0xffeff47d, 0x85845dd1,
   0x6fa87e4f, 0xfe2ce6e0, 0xa3014314, 0x4e0811a1,
   0xf7537e82, 0xbd3af235, 0x2ad7d2bb, 0xeb86d391]

/-- The MD5 per-round left-rotation amounts. -/
def sTable : List Nat :=
  [7, 12, 17, 22, 7, 12, 17, 22, 7, 12, 17, 22, 7, 12, 17, 22,
   5, 9, 14, 20, 5, 9, 14, 20, 5, 9, 14, 20, 5, 9, 14, 20,
   4, 11, 16, 23, 4, 11, 16, 23, 4, 11, 16, 23, 4, 11, 16, 23,
   6, 10, 15, 21, 6, 10, 15, 21, 6, 10, 15, 21, 6, 10, 15, 21]

/-- MD5 working state: four 32-bit words. -/
structure St where
  a : Nat
  b : Nat
  c : Nat
  d : Nat
deriving DecidableEq

/-- The little-endian 32-bit word `g` of a 64-byte chunk. -/
def chunkWord (chunk : List Nat) (g : Nat) : Nat :=
  chunk.getD (4 * g) 0 + 256 * chunk.getD (4 * g + 1) 0 +
    65536 * chunk.getD (4 * g + 2) 0 + 16777216 * chunk.getD (4 * g + 3) 0

/-- One of the 64 MD5 rounds. -/
def step (m : Nat → Nat) (st : St) (i : Nat) : St :=
  let f :=
    if i < 16 then (st.b &&& st.c) ||| ((0xffffffff ^^^ st.b) &&& st.d)
    else if i < 32 then (st.d &&& st.b) ||| ((0xffffffff ^^^ st.d) &&& st.c)
    else if i < 48 then st.b ^^^ st.c ^^^ st.d
    else st.c ^^^ (st.b ||| (0xffffffff ^^^ st.d))
  let g :=
    if i < 16 then i
    else if i < 32 then (5 * i + 1) % 16
    else if i < 48 then (3 * i + 5) % 16
    else (7 * i) % 16
  let f := (f + st.a + kTable.getD i 0 + m g) % m32
  ⟨st.d, (st.b + rotl f (sTable.getD i 0)) % m32, st.b, st.c⟩

/-- Process one 64-byte chunk. -/
def processChunk (st : St) (chunk : List Nat) : St :=
  let r := (List.range 64).foldl (step (chunkWord chunk)) st
  ⟨(st.a + r.a) % m32, (st.b + r.b) % m32, (st.c + r.c) % m32,
   (st.d + r.d) % m32⟩

/-- Process `n` chunks of 64 bytes. -/
def runChunks : Nat → St → List Nat → St
  | 0, st, _ => st
  | Nat.succ k, st, l => runChunks k (processChunk st (l.take 64)) (l.drop 64)

/-- The 8 little-endian bytes of the 64-bit message bit length. -/
def lenBytes8 (n : Nat) : List Nat :=
  [n % 256, n / 256 % 256, n / 65536 % 256, n / 16777216 % 256,
   n / 4294967296 % 256, n / 1099511627776 % 256,
   n / 281474976710656 % 256, n / 72057594037927936 % 256]

/-- MD5 padding: a 1-bit, zeros to 56 mod 64, then the bit length. -/
def padMsg (msg : List Nat) : List Nat :=
  let z := (56 + 64 - (msg.length + 1) % 64) % 64
  msg ++ [128] ++ List.replicate z 0 ++
    lenBytes8 ((msg.length * 8) % 18446744073709551616)

/-- The 4 little-endian bytes of a 32-bit word. -/
def word32Bytes (x : Nat) : List Nat :=
  [x % 256, x / 256 % 256, x / 65536 % 256, x / 16777216 % 256]

/-- The 16 digest bytes of a byte message. -/
def digest (msg : List Nat) : List Nat :=
  let p := padMsg msg
  let st := runChunks (p.length / 64)
    ⟨0x67452301, 0xefcdab89, 0x98badcfe, 0x10325476⟩ p
  word32Bytes st.a ++ word32Bytes st.b ++ word32Bytes st.c ++ word32Bytes st.d

/-- One lowercase hex character. -/
def hexChar (n : Nat) : Char := ("0123456789abcdef".data).getD n '0'

/-- Two lowercase hex characters of one byte. -/
def byteHex (b : Nat) : String := String.mk [hexChar (b / 16), hexChar (b % 16)]

/-- Model of Python `hashlib.md5(bytes).hexdigest()`. -/
def hexDigest (msg : List Nat) : String :=
  String.join ((digest msg).map byteHex)

end MD5

/-! ## Data model

The canonical Document record (spec section 3).  Per-source extra fields
that are written into the metadata JSON but never read back by any
control flow (venue, citations, categories, external ids, journal,
is_open_access) are omitted; the fields below are exactly the ones the
pipeline reads.  The news source additionally populates `summary` and
`text`. -/

/-- Canonical document record produced by the per-source normalizers. -/
structure Document where
  id : String
  title : String
  authors : List String
  abstract : String := ""
  url : String := ""
  pdfUrl : String := ""
  published : String := ""
  source : String
  keyword : String := ""
  fetchedAt : String := ""
  doi : String := ""
  summary : String := ""
  text : String := ""
  uniqueId? : Option String := none
deriving DecidableEq

/-- Dedup projection record: exactly the five fields written by
`BaseSource._is_duplicate` (academic.py lines 160 to 166). -/
structure DedupRecord where
  title : String
  authors : List String
  source : String
  id : String
  url : String
deriving DecidableEq

/-- Association-list lookup keyed by strings, first match wins. -/
def alookup {β : Type} (k : String) : List (String × β) → Option β
  | [] => none
  | (j, v) :: rest => if k = j then some v else alookup k rest

/-- On-disk and network effect state threaded through the pipeline.
`dedup` and `metadata` are keyed by full file paths; `files` are the
artifact files present in a download directory; `netCalls` logs every
issued HTTP request; `downloads` logs every attempted artifact download
(calls of `BaseSource._download_file` and the news text writes are kept
apart: text writes land in `files` only through `saveArticleText`). -/
structure FS where
  dedup : List (String × DedupRecord) := []
  metadata : List (String × Document) := []
  files : List String := []
  netCalls : List String := []
  downloads : List String := []
deriving DecidableEq

/-! ## Raw API records

One record type per external source, holding exactly the fields the
Python normalizer reads.  The `isinstance`/`get` guards that degrade
malformed upstream values to defaults are absorbed into these typed
shapes (a missing optional value is an empty string, list or `none`,
matching the defaults the guards produce). -/

/-- Raw arXiv library result (academic.py lines 220 to 234). -/
structure ArxivPaper where
  shortId : String
  title : String
  authors : List String
  summary : String
  entryId : String
  pdfUrl : String
  published : String
deriving DecidableEq

/-- Raw Google Scholar record (academic.py lines 311 to 333). -/
structure ScholarPub where
  title : String
  authors : List String
  abstract : String
  pubUrl : String
  eprintUrl : String
  pubYear : String
deriving DecidableEq

/-- Raw Semantic Scholar record (academic.py lines 462 to 489). -/
structure SemanticPaper where
  paperId : String
  title : String
  authors : List String
  abstract : String
  url : String
  year : String
  openAccessPdf : Option String
deriving DecidableEq

/-- Raw CORE record (academic.py lines 608 to 634). -/
structure CorePaper where
  id : String
  title : String
  authors : List String
  abstract : String
  sourceFulltextUrl : String
  publishedDate : String
  doi : String
  downloadUrl : String
deriving DecidableEq

/-- Raw Crossref record (academic.py lines 742 to 775).  `authors` holds
given and family name pairs, `links` holds url and content-type pairs. -/
structure CrossrefPaper where
  doi : String
  title : List String
  authors : List (String × String)
  created : String
  links : List (String × String)
deriving DecidableEq

/-- Raw Unpaywall response for one DOI (academic.py lines 889 to 924). -/
structure UnpaywallResp where
  isOa : Bool
  title : String
  zAuthors : List (String × String)
  doiUrl : String
  pdfUrl? : Option String
  publishedDate : String
deriving DecidableEq

/-- Raw PubMed article (academic.py lines 1036 to 1091).  `authors`
holds fore-name and last-name pairs. -/
structure PubmedArticle where
  pmid : String
  title : String
  abstract : String
  authors : List (String × String)
  year : String
  month : String
  day : String
  doi : String
deriving DecidableEq

/-- Raw DOAJ record (academic.py lines 1174 to 1223). -/
structure DoajPaper where
  id : String
  title : String
  abstract : String
  authors : List String
  year? : Option String
  month? : Option String
  doi : String
  fulltextUrl : String
deriving DecidableEq

/-- Raw OpenAIRE record after the dollar-field unwrapping
(academic.py lines 1326 to 1398). -/
structure OpenairePaper where
  objIdentifier : String
  title : String
  authors : List String
  date : String
  doi : String
  webUrl : String
deriving DecidableEq

/-- Raw news article delivered by the newspaper library
(news.py lines 97 to 133). -/
structure NewsArticle where
  url : String
  title : String
  authors : List String
  text : String
  summary : String
  published : String
  sourceUrl : String
deriving DecidableEq

/-- External collaborators: network responses per source, the failure
behaviour of dedup file reads and writes, artifact download success, the
clock, and the CROSSREF_EMAIL environment variable.  A network oracle
returning `Except.error` models the exception path of the corresponding
request; for Semantic Scholar the bounded 429 retry loop of the library
call is absorbed into the final outcome of the oracle. -/
structure Env where
  readFails : String → Bool
  writeFails : String → Bool
  downloadOk : String → Bool
  now : String
  crossrefEmailEnv : String
  arxivNet : String → Except String (List ArxivPaper)
  scholarNet : String → Except String (List ScholarPub)
  semanticNet : String → Except String (List SemanticPaper)
  coreNet : String → Except String (List CorePaper)
  crossrefNet : String → Except String (List CrossrefPaper)
  unpaywallNet : String → Except String (Option UnpaywallResp)
  pubmedSearchNet : String → Except String (List String)
  pubmedFetchNet : List String → Except String (List PubmedArticle)
  doajNet : String → Except String (List DoajPaper)
  openaireNet : String → Except String (List OpenairePaper)
  newsNet : String → Except String (List NewsArticle)

/-- Per-source constructor configuration (BaseSource.__init__).
`timeout` is carried for completeness; the network oracles absorb it. -/
structure SourceCfg where
  downloadDir : String
  maxResults : Nat
  downloadPdfs : Bool
  timeout : Nat := 30
deriving DecidableEq

/-! ## Effect helpers -/

/-- Log one issued HTTP request. -/
def addNet (fs : FS) (c : String) : FS :=
  { fs with netCalls := fs.netCalls ++ [c] }

/-- Path of a metadata file inside a download directory. -/
def metaPath (cfg : SourceCfg) (fname : String) : String :=
  cfg.downloadDir ++ "/metadata/" ++ fname

/-- Path of an artifact file inside a download directory. -/
def filePath (cfg : SourceCfg) (fname : String) : String :=
  cfg.downloadDir ++ "/" ++ fname

/-- Model of `BaseSource._save_metadata`: writes the document JSON under
the metadata directory (write errors are caught and logged in the
Python code and are not modelled: the metadata store is never read back
by the pipeline). -/
def saveMetadata (cfg : SourceCfg) (fs : FS) (fname : String) (d : Document) : FS :=
  { fs with metadata := (metaPath cfg fname, d) :: fs.metadata }

/-- Model of `BaseSource._download_file`: issues a GET for `url` and, on
success, creates the file at `path`. -/
def downloadFile (env : Env) (fs : FS) (url path : String) : FS :=
  let fs := { fs with netCalls := fs.netCalls ++ ["GET " ++ url],
                      downloads := fs.downloads ++ [path] }
  if env.downloadOk url then { fs with files := path :: fs.files } else fs

/-- The existence-guarded download used at every call site of
`_download_file`: a no-op when the target file already exists. -/
def downloadIfAbsent (env : Env) (fs : FS) (url path : String) : FS :=
  if path ∈ fs.files then fs else downloadFile env fs url path

/-! ## Deduplicator (BaseSource, academic.py lines 113 to 170) -/

/-- Model of `BaseSource._generate_unique_id`: the MD5 hex digest of the
lower-cased concatenation of the title and all authors. -/
def generateUniqueId (d : Document) : String :=
  MD5.hexDigest (strBytes (pyLower (d.title ++ String.join d.authors)))

/-- The unique id `_is_duplicate` keys on: the stored one when present,
otherwise the generated fingerprint. -/
def docUid (d : Document) : String :=
  match d.uniqueId? with
  | some u => u
  | none => generateUniqueId d

/-- Path of the dedup record file for a unique id. -/
def dedupPath (dir uid : String) : String := dir ++ "/dedup/" ++ uid ++ ".json"

/-- The projection persisted by `_is_duplicate` on first sighting. -/
def projection (d : Document) : DedupRecord :=
  ⟨d.title, d.authors, d.source, d.id, d.url⟩

/-- Model of `BaseSource._is_duplicate`.  Returns the duplicate flag,
the document with `unique_id` filled in, and the updated state.  The
Python code first stores the generated unique id into the document when
absent and then keys on it; `docUid` names that key, and the returned
document is the input with exactly that id stored (when an id was
already present the update is the identity).  A failing read of an
existing record file and a failing write of a new one are both caught
in the Python code and yield `False`; a failing write leaves no record.
The projection record ignores the unique id field, so writing the
projection of the input equals writing that of the mutated document. -/
def isDuplicate (env : Env) (dir : String) (fs : FS) (doc0 : Document) :
    Bool × Document × FS :=
  match alookup (dedupPath dir (docUid doc0)) fs.dedup with
  | some _ =>
      if env.readFails (dedupPath dir (docUid doc0)) then
        (false, { doc0 with uniqueId? := some (docUid doc0) }, fs)
      else (true, { doc0 with uniqueId? := some (docUid doc0) }, fs)
  | none =>
      if env.writeFails (dedupPath dir (docUid doc0)) then
        (false, { doc0 with uniqueId? := some (docUid doc0) }, fs)
      else
        (false, { doc0 with uniqueId? := some (docUid doc0) },
          { fs with dedup := (dedupPath dir (docUid doc0),
              projection doc0) :: fs.dedup })

/-! ## Per-source normalizers

One builder per source, mapping the raw record to the canonical
Document exactly as the corresponding Python block does. -/

/-- Normalizer of `ArxivSource` (academic.py lines 220 to 234). -/
def arxivDoc (now kw : String) (p : ArxivPaper) : Document :=
  { id := p.shortId, title := p.title, authors := p.authors,
    abstract := p.summary, url := p.entryId, pdfUrl := p.pdfUrl,
    published := p.published, source := "arxiv", keyword := kw,
    fetchedAt := now }

/-- Normalizer of `ScholarSource` (academic.py lines 311 to 333); the id
embeds the loop index and the first 8 hex digits of the MD5 of the raw
title. -/
def scholarDoc (now kw : String) (i : Nat) (p : ScholarPub) : Document :=
  { id := "scholar_" ++ toString i ++ "_" ++
      pyTake (MD5.hexDigest (strBytes p.title)) 8,
    title := p.title, authors := p.authors, abstract := p.abstract,
    url := p.pubUrl, pdfUrl := p.eprintUrl, published := p.pubYear,
    source := "scholar", keyword := kw, fetchedAt := now }

/-- Normalizer of `SemanticScholarSource` (academic.py lines 462 to 489). -/
def semanticDoc (now kw : String) (p : SemanticPaper) : Document :=
  { id := p.paperId, title := p.title, authors := p.authors,
    abstract := p.abstract, url := p.url,
    pdfUrl := p.openAccessPdf.getD "", published := p.year,
    source := "semantic_scholar", keyword := kw, fetchedAt := now }

/-- Normalizer of `CoreSource` (academic.py lines 608 to 634). -/
def coreDoc (now kw : String) (p : CorePaper) : Document :=
  { id := p.id, title := p.title, authors := p.authors,
    abstract := p.abstract, url := p.sourceFulltextUrl,
    pdfUrl := p.downloadUrl, published := p.publishedDate,
    source := "core", keyword := kw, fetchedAt := now, doi := p.doi }

/-- Normalizer of `CrossrefSource` (academic.py lines 742 to 775). -/
def crossrefDoc (now kw : String) (p : CrossrefPaper) : Document :=
  { id := pyReplace p.doi '/' '_',
    title := match p.title with | [] => "Unknown Title" | t :: _ => t,
    authors := p.authors.map (fun a => a.1 ++ " " ++ a.2),
    url := if p.doi != "" then "https://doi.org/" ++ p.doi else "",
    pdfUrl := ((p.links.find? (fun l => l.2 == "application/pdf")).map
      (fun l => l.1)).getD "",
    published := p.created, source := "crossref", keyword := kw,
    fetchedAt := now, doi := p.doi }

/-- Normalizer of `UnpaywallSource._fetch_by_doi`
(academic.py lines 896 to 924). -/
def unpaywallDoc (now doi : String) (r : UnpaywallResp) : Document :=
  { id := pyReplace doi '/' '_', title := r.title,
    authors := r.zAuthors.map (fun a => a.1 ++ " " ++ a.2),
    url := r.doiUrl, pdfUrl := r.pdfUrl?.getD "",
    published := r.publishedDate, source := "unpaywall", keyword := "",
    fetchedAt := now, doi := doi }

/-- Normalizer of `PubMedSource` (academic.py lines 1036 to 1091). -/
def pubmedDoc (now kw : String) (a : PubmedArticle) : Document :=
  { id := a.pmid, title := a.title,
    authors := (a.authors.filter (fun p => p.1 != "" || p.2 != "")).map
      (fun p => pyStrip (p.1 ++ " " ++ p.2)),
    abstract := a.abstract,
    url := "https://pubmed.ncbi.nlm.nih.gov/" ++ a.pmid ++ "/",
    published := if a.year != "" then a.year ++ "-" ++ a.month ++ "-" ++ a.day
      else "",
    source := "pubmed", keyword := kw, fetchedAt := now, doi := a.doi }

/-- Normalizer of `DOAJSource` (academic.py lines 1174 to 1223); an
empty `doi` models the absence of a doi identifier, in which case no url
is derived. -/
def doajDoc (now kw : String) (p : DoajPaper) : Document :=
  { id := p.id, title := p.title, abstract := p.abstract,
    authors := p.authors,
    url := if p.doi != "" then "https://doi.org/" ++ p.doi else "",
    pdfUrl := p.fulltextUrl,
    published := match p.year?, p.month? with
      | some y, some m => y ++ "-" ++ m
      | _, _ => "",
    source := "doaj", keyword := kw, fetchedAt := now, doi := p.doi }

/-- Normalizer of `OpenAIRESource` (academic.py lines 1326 to 1399). -/
def openaireDoc (now kw : String) (p : OpenairePaper) : Document :=
  { id := p.objIdentifier, title := p.title, authors := p.authors,
    url := if p.webUrl != "" then p.webUrl
      else if p.doi != "" then "https://doi.org/" ++ p.doi else "",
    published := p.date, source := "openaire", keyword := kw,
    fetchedAt := now, doi := p.doi }

/-- Normalizer of `NewsSource` (news.py lines 122 to 133). -/
def newsDoc (now kw id : String) (a : NewsArticle) : Document :=
  { id := id, title := a.title, authors := a.authors,
    summary := a.summary, text := a.text, url := a.url,
    source := a.sourceUrl, published := a.published, keyword := kw,
    fetchedAt := now }

/-! ## The shared per-document loop

Every academic source runs the same body for each normalized document:
dedup check, metadata save, optional artifact download, append
(spec section 9 notes this copy-paste structure).  The differences are
captured by a policy value per source:

* `metaAlways`: `ArxivSource` saves metadata outside the preview guard
  (academic.py line 244); every other source saves inside
  `if not preview_mode`.
* `hasDownload`: whether the source has a PDF download branch at all
  (`PubMedSource` and `OpenAIRESource` do not).
* `needUrl`: whether the download branch additionally requires a
  nonempty `pdf_url` (`ArxivSource` does not check it). -/

/-- Per-source loop policy. -/
structure LoopPolicy where
  pre : String
  metaAlways : Bool
  hasDownload : Bool
  needUrl : Bool

/-- State update for a freshly seen (non-duplicate) document: the
metadata save (guarded by preview mode except under `metaAlways`)
followed by the guarded artifact download. -/
def newDocState (env : Env) (cfg : SourceCfg) (pol : LoopPolicy)
    (preview : Bool) (doc : Document) (fs : FS) : FS :=
  let fs1 := if pol.metaAlways || !preview then
      saveMetadata cfg fs (pol.pre ++ doc.id ++ ".json") doc
    else fs
  if !preview && pol.hasDownload && cfg.downloadPdfs &&
      (!pol.needUrl || doc.pdfUrl != "") then
    downloadIfAbsent env fs1 doc.pdfUrl
      (filePath cfg (pol.pre ++ doc.id ++ ".pdf"))
  else fs1

/-- The shared per-document loop body, iterated over the normalized
documents of one response. -/
def processDocs (env : Env) (cfg : SourceCfg) (pol : LoopPolicy) (preview : Bool) :
    FS → List Document → List Document × FS
  | fs, [] => ([], fs)
  | fs, d :: ds =>
    let t := isDuplicate env cfg.downloadDir fs d
    if t.1 then processDocs env cfg pol preview t.2.2 ds
    else
      let rest := processDocs env cfg pol preview
        (newDocState env cfg pol preview t.2.1 t.2.2) ds
      (t.2.1 :: rest.1, rest.2)

/-- Shared shape of one single-keyword search fetch: issue the request,
degrade a failing response to an empty result, otherwise run the
per-document loop over the normalized documents. -/
def searchFetchSingle (env : Env) (cfg : SourceCfg) (pol : LoopPolicy)
    (label : String) (resp : Except String (List Document)) (preview : Bool)
    (fs : FS) : List Document × FS :=
  let fs := addNet fs label
  match resp with
  | .error _ => ([], fs)
  | .ok docs => processDocs env cfg pol preview fs docs

/-! ## Per-source single-keyword fetchers

The `max_results` cap is passed to each external API
(`arxiv.Search(max_results=...)`, `limit`, `rows`, `retmax`,
`pageSize`, `size`); the cap contract of those collaborators is modelled
by `List.take cfg.maxResults` on the oracle response.  `ScholarSource`
caps in repository code via `range(self.max_results)`. -/

/-- Loop policy of `ArxivSource`: metadata is saved even in preview
mode, and the download branch does not check `pdf_url`. -/
def arxivPolicy : LoopPolicy := ⟨"arxiv_", true, true, false⟩

/-- Loop policy of `ScholarSource`. -/
def scholarPolicy : LoopPolicy := ⟨"scholar_", false, true, true⟩

/-- Loop policy of `SemanticScholarSource`. -/
def semanticPolicy : LoopPolicy := ⟨"semantic_", false, true, true⟩

/-- Loop policy of `CoreSource`. -/
def corePolicy : LoopPolicy := ⟨"core_", false, true, true⟩

/-- Loop policy of `CrossrefSource`. -/
def crossrefPolicy : LoopPolicy := ⟨"crossref_", false, true, true⟩

/-- Loop policy of `PubMedSource`: no download branch. -/
def pubmedPolicy : LoopPolicy := ⟨"pubmed_", false, false, true⟩

/-- Loop policy of `DOAJSource`. -/
def doajPolicy : LoopPolicy := ⟨"doaj_", false, true, true⟩

/-- Loop policy of `OpenAIRESource`: no download branch. -/
def openairePolicy : LoopPolicy := ⟨"openaire_", false, false, true⟩

/-- Model of `ArxivSource._fetch_single_keyword`. -/
def arxivFetchSingle (env : Env) (cfg : SourceCfg) (kw : String)
    (preview : Bool) (fs : FS) : List Document × FS :=
  searchFetchSingle env cfg arxivPolicy ("arxiv:search:" ++ kw)
    ((env.arxivNet kw).map
      (fun ps => (ps.take cfg.maxResults).map (arxivDoc env.now kw)))
    preview fs

/-- Model of `ScholarSource._fetch_single_keyword`; the generator is
drained for at most `max_results` items, the loop index enters the id. -/
def scholarFetchSingle (env : Env) (cfg : SourceCfg) (kw : String)
    (preview : Bool) (fs : FS) : List Document × FS :=
  searchFetchSingle env cfg scholarPolicy ("scholar:search:" ++ kw)
    ((env.scholarNet kw).map
      (fun ps => ((ps.take cfg.maxResults).enum).map
        (fun ip => scholarDoc env.now kw ip.1 ip.2)))
    preview fs

/-- Model of `SemanticScholarSource._fetch_single_keyword`. -/
def semanticFetchSingle (env : Env) (cfg : SourceCfg) (kw : String)
    (preview : Bool) (fs : FS) : List Document × FS :=
  searchFetchSingle env cfg semanticPolicy ("semantic:search:" ++ kw)
    ((env.semanticNet kw).map
      (fun ps => (ps.take cfg.maxResults).map (semanticDoc env.now kw)))
    preview fs

/-- Model of `CoreSource._fetch_single_keyword`: an empty api key short
circuits to an empty result before any request (academic.py lines 583
to 585). -/
def coreFetchSingle (env : Env) (cfg : SourceCfg) (apiKey : String)
    (kw : String) (preview : Bool) (fs : FS) : List Document × FS :=
  if apiKey = "" then ([], fs)
  else
    searchFetchSingle env cfg corePolicy ("core:search:" ++ kw)
      ((env.coreNet kw).map
        (fun ps => (ps.take cfg.maxResults).map (coreDoc env.now kw)))
      preview fs

/-- Model of `CrossrefSource._fetch_single_keyword`; a configured email
only adds the `mailto` request parameter. -/
def crossrefFetchSingle (env : Env) (cfg : SourceCfg) (mailto : String)
    (kw : String) (preview : Bool) (fs : FS) : List Document × FS :=
  searchFetchSingle env cfg crossrefPolicy
    ("crossref:search:" ++ kw ++ (if mailto = "" then "" else " mailto"))
    ((env.crossrefNet kw).map
      (fun ps => (ps.take cfg.maxResults).map (crossrefDoc env.now kw)))
    preview fs

/-- Model of `PubMedSource._fetch_single_keyword`: esearch for PMIDs,
then efetch for the article details when any were found. -/
def pubmedFetchSingle (env : Env) (cfg : SourceCfg) (kw : String)
    (preview : Bool) (fs : FS) : List Document × FS :=
  let fs := addNet fs ("pubmed:esearch:" ++ kw)
  match env.pubmedSearchNet kw with
  | .error _ => ([], fs)
  | .ok ids =>
    let ids := ids.take cfg.maxResults
    if ids = [] then ([], fs)
    else
      let fs := addNet fs ("pubmed:efetch:" ++ kw)
      match env.pubmedFetchNet ids with
      | .error _ => ([], fs)
      | .ok arts =>
          processDocs env cfg pubmedPolicy preview fs
            (arts.map (pubmedDoc env.now kw))

/-- Model of `DOAJSource._fetch_single_keyword`. -/
def doajFetchSingle (env : Env) (cfg : SourceCfg) (kw : String)
    (preview : Bool) (fs : FS) : List Document × FS :=
  searchFetchSingle env cfg doajPolicy ("doaj:search:" ++ kw)
    ((env.doajNet kw).map
      (fun ps => (ps.take cfg.maxResults).map (doajDoc env.now kw)))
    preview fs

/-- Model of `OpenAIRESource._fetch_single_keyword`. -/
def openaireFetchSingle (env : Env) (cfg : SourceCfg) (kw : String)
    (preview : Bool) (fs : FS) : List Document × FS :=
  searchFetchSingle env cfg openairePolicy ("openaire:search:" ++ kw)
    ((env.openaireNet kw).map
      (fun ps => (ps.take cfg.maxResults).map (openaireDoc env.now kw)))
    preview fs

/-- Persistence block of `UnpaywallSource._fetch_by_doi`: metadata save
and guarded download, both suppressed in preview mode. -/
def unpaywallWriteState (env : Env) (cfg : SourceCfg) (preview : Bool)
    (doc : Document) (fs : FS) : FS :=
  if !preview then
    let fsm := saveMetadata cfg fs ("unpaywall_" ++ doc.id ++ ".json") doc
    if cfg.downloadPdfs && doc.pdfUrl != "" then
      downloadIfAbsent env fsm doc.pdfUrl
        (filePath cfg ("unpaywall_" ++ doc.id ++ ".pdf"))
    else fsm
  else fs

/-- Model of `UnpaywallSource._fetch_by_doi`: the email gate comes
first, then the lookup; a 404 is `Except.ok none`, a closed-access
record or a duplicate yields nothing. -/
def unpaywallFetchByDoi (env : Env) (cfg : SourceCfg) (email doi : String)
    (preview : Bool) (fs : FS) : Option Document × FS :=
  if email = "" then (none, fs)
  else
    let fs := addNet fs ("unpaywall:get:" ++ doi)
    match env.unpaywallNet doi with
    | .error _ => (none, fs)
    | .ok none => (none, fs)
    | .ok (some r) =>
      if !r.isOa then (none, fs)
      else
        let t := isDuplicate env cfg.downloadDir fs (unpaywallDoc env.now doi r)
        if t.1 then (none, t.2.2)
        else (some t.2.1, unpaywallWriteState env cfg preview t.2.1 t.2.2)

/-- The per-DOI resolution loop of `UnpaywallSource.fetch`; an
individual failure is skipped, not fatal to the batch. -/
def unpaywallLoop (env : Env) (cfg : SourceCfg) (email : String)
    (preview : Bool) : FS → List String → List Document × FS
  | fs, [] => ([], fs)
  | fs, doi :: rest =>
    let t := unpaywallFetchByDoi env cfg email doi preview fs
    let r := unpaywallLoop env cfg email preview t.2 rest
    (match t.1 with | some d => d :: r.1 | none => r.1, r.2)

/-- Keyword fan-out shared by every `fetch(keyword)` entry point when
given a list: one single-keyword fetch per keyword, results
concatenated in keyword order. -/
def foldKeywords (f : String → Bool → FS → List Document × FS)
    (preview : Bool) : FS → List String → List Document × FS
  | fs, [] => ([], fs)
  | fs, k :: ks =>
    let r := f k preview fs
    let rest := foldKeywords f preview r.2 ks
    (r.1 ++ rest.1, rest.2)

/-- Model of `UnpaywallSource.fetch`: a Crossref sub-source (with
download_pdfs False and the CROSSREF_EMAIL environment value) is queried
in preview mode for DOIs, which are then resolved individually. -/
def unpaywallFetch (env : Env) (cfg : SourceCfg) (email : String)
    (kws : List String) (preview : Bool) (fs : FS) : List Document × FS :=
  let subCfg := { cfg with downloadPdfs := false }
  let cr :=
    foldKeywords (crossrefFetchSingle env subCfg env.crossrefEmailEnv) true fs kws
  let dois := ((cr.1.filter (fun d => d.doi != "")).map
    (fun d => d.doi)).take cfg.maxResults
  unpaywallLoop env cfg email preview cr.2 dois

/-! ## News source (news.py) -/

/-- Article id derivation (news.py lines 118 to 120). -/
def newsArticleId (a : NewsArticle) (count : Nat) : String :=
  let base := (pySplit ((pySplit a.url '/').getLastD "") '.').headD ""
  if base = "" then "news_" ++ toString count else base

/-- Keyword filter (news.py lines 108 to 109). -/
def newsMatch (kw : String) (a : NewsArticle) : Bool :=
  strContains (pyLower a.title) (pyLower kw) ||
    (a.text != "" && strContains (pyLower a.text) (pyLower kw))

/-- Metadata truncation of `NewsSource._save_metadata`
(news.py line 173). -/
def truncateText (d : Document) : Document :=
  if d.text.data.length > 500 then
    { d with text := String.mk (d.text.data.take 500) ++ "..." }
  else d

/-- Persistence of one news article: truncated metadata JSON plus the
full text file. -/
def newsSave (cfg : SourceCfg) (fs : FS) (d : Document) : FS :=
  let fs := { fs with metadata :=
    (metaPath cfg ("news_" ++ d.id ++ ".json"), truncateText d) :: fs.metadata }
  { fs with files := filePath cfg ("news_" ++ d.id ++ ".txt") :: fs.files }

/-- The state written for one matching news article: persisted unless
in preview mode. -/
def newsHitState (env : Env) (cfg : SourceCfg) (kw : String) (preview : Bool)
    (count : Nat) (a : NewsArticle) (fs : FS) : FS :=
  if !preview then
    newsSave cfg fs (newsDoc env.now kw (newsArticleId a count) a)
  else fs

/-- Per-article loop of `NewsSource._fetch_single_keyword`: the result
cap is checked against the number of results collected so far, matching
articles are persisted unless in preview mode.  The news source performs
no dedup check. -/
def newsLoop (env : Env) (cfg : SourceCfg) (kw : String) (preview : Bool) :
    Nat → FS → List NewsArticle → List Document × FS
  | _, fs, [] => ([], fs)
  | count, fs, a :: rest =>
    if cfg.maxResults ≤ count then ([], fs)
    else if newsMatch kw a then
      let doc := newsDoc env.now kw (newsArticleId a count) a
      let r := newsLoop env cfg kw preview (count + 1)
        (newsHitState env cfg kw preview count a fs) rest
      (doc :: r.1, r.2)
    else newsLoop env cfg kw preview count fs rest

/-- Model of `NewsSource._fetch_single_keyword`; building the newspaper
objects and the pooled crawl over all configured outlets are absorbed
into one oracle call delivering the flattened article list. -/
def newsFetchSingle (env : Env) (cfg : SourceCfg) (kw : String)
    (preview : Bool) (fs : FS) : List Document × FS :=
  let fs := addNet fs ("news:crawl:" ++ kw)
  match env.newsNet kw with
  | .error _ => ([], fs)
  | .ok arts => newsLoop env cfg kw preview 0 fs arts

/-! ## Source instances and the manager (manager.py) -/

/-- The live source objects a constructed manager can hold.  The api key
of the Semantic Scholar instance only selects request headers and the
Crossref email only adds a request parameter; both are carried for
completeness. -/
inductive SourceInst where
  | arxiv (cfg : SourceCfg)
  | scholar (cfg : SourceCfg)
  | semanticScholar (cfg : SourceCfg) (apiKey : String)
  | core (cfg : SourceCfg) (apiKey : String)
  | crossref (cfg : SourceCfg) (email : String)
  | unpaywall (cfg : SourceCfg) (email : String)
  | pubmed (cfg : SourceCfg)
  | doaj (cfg : SourceCfg)
  | openaire (cfg : SourceCfg)
  | news (cfg : SourceCfg)

/-- The `fetch` entry point of each source, on a keyword list (the form
the manager always uses; the single-string branch of the Python code is
the body of the corresponding single-keyword fetcher). -/
def SourceInst.fetchList (env : Env) :
    SourceInst → List String → Bool → FS → List Document × FS
  | .arxiv cfg, kws, pv, fs => foldKeywords (arxivFetchSingle env cfg) pv fs kws
  | .scholar cfg, kws, pv, fs => foldKeywords (scholarFetchSingle env cfg) pv fs kws
  | .semanticScholar cfg _, kws, pv, fs =>
      foldKeywords (semanticFetchSingle env cfg) pv fs kws
  | .core cfg apiKey, kws, pv, fs =>
      foldKeywords (coreFetchSingle env cfg apiKey) pv fs kws
  | .crossref cfg email, kws, pv, fs =>
      foldKeywords (crossrefFetchSingle env cfg email) pv fs kws
  | .unpaywall cfg email, kws, pv, fs => unpaywallFetch env cfg email kws pv fs
  | .pubmed cfg, kws, pv, fs => foldKeywords (pubmedFetchSingle env cfg) pv fs kws
  | .doaj cfg, kws, pv, fs => foldKeywords (doajFetchSingle env cfg) pv fs kws
  | .openaire cfg, kws, pv, fs => foldKeywords (openaireFetchSingle env cfg) pv fs kws
  | .news cfg, kws, pv, fs => foldKeywords (newsFetchSingle env cfg) pv fs kws

/-- A fetcher as the manager sees it: the manager guards every call, so
the type allows a raising fetch (`Except.error`), which concrete
source instances never produce. -/
abbrev Fetcher := List String → Bool → FS → Except String (List Document) × FS

/-- The total fetcher of a concrete source instance. -/
def SourceInst.toFetcher (env : Env) (inst : SourceInst) : Fetcher :=
  fun kws pv fs =>
    let r := inst.fetchList env kws pv fs
    (Except.ok r.1, r.2)

/-- The fetcher map of a manager over concrete source instances. -/
def mgrFetchers (env : Env) (srcs : List (String × SourceInst)) :
    List (String × Fetcher) :=
  srcs.map (fun p => (p.1, p.2.toFetcher env))

/-- The source-type skip conditions of the manager loops
(manager.py lines 153 to 157 and 199 to 203). -/
def skipSource (stype : Option String) (name : String) : Bool :=
  (stype == some "academic" && name == "news") ||
    (stype == some "news" && name != "news")

/-- The fetch loop of `SourceManager.fetch_documents` (lines 196 to
213): per-source try/except, a raising fetch contributes an
empty-list entry. -/
def fetchLoop (kws : List String) (stype : Option String) :
    FS → List (String × Fetcher) → List (String × List Document) × FS
  | fs, [] => ([], fs)
  | fs, p :: rest =>
    if skipSource stype p.1 then fetchLoop kws stype fs rest
    else
      let r := p.2 kws false fs
      let entry : String × List Document :=
        (p.1, match r.1 with | .ok docs => docs | .error _ => [])
      let restRes := fetchLoop kws stype r.2 rest
      (entry :: restRes.1, restRes.2)

/-- The preview loop of `SourceManager.preview_documents` (lines 152 to
166): fetches with preview mode on, records counts, a raising fetch
contributes a zero entry. -/
def previewLoop (kws : List String) (stype : Option String) :
    FS → List (String × Fetcher) → List (String × Nat) × FS
  | fs, [] => ([], fs)
  | fs, p :: rest =>
    if skipSource stype p.1 then previewLoop kws stype fs rest
    else
      let r := p.2 kws true fs
      let entry : String × Nat :=
        (p.1, match r.1 with | .ok docs => docs.length | .error _ => 0)
      let restRes := previewLoop kws stype r.2 rest
      (entry :: restRes.1, restRes.2)

/-- Model of `SourceManager.preview_documents`. -/
def previewDocuments (srcs : List (String × Fetcher)) (kws : List String)
    (stype : Option String) (fs : FS) : List (String × Nat) × FS :=
  if kws = [] then ([], fs) else previewLoop kws stype fs srcs

/-- The three result shapes `SourceManager.fetch_documents` can return:
the literal empty dict, the preview counts mapping, or the mapping from
source names to document lists. -/
inductive ManagerResult where
  | emptyDict
  | counts (m : List (String × Nat))
  | documents (m : List (String × List Document))
deriving DecidableEq

/-- Model of `SourceManager.fetch_documents` (manager.py lines 170 to
213). -/
def fetchDocuments (srcs : List (String × Fetcher)) (kws : List String)
    (previewFirst : Bool) (stype : Option String) (fs : FS) :
    ManagerResult × FS :=
  if kws = [] then (.emptyDict, fs)
  else if previewFirst then
    let p := previewDocuments srcs kws stype fs
    if (p.1.map (fun e => e.2)).sum = 0 then (.emptyDict, p.2)
    else (.counts p.1, p.2)
  else
    let m := fetchLoop kws stype fs srcs
    (.documents m.1, m.2)

/-! ## Manager construction (manager.py lines 23 to 133)

Python raises `TypeError` when a call passes a keyword argument the
callee does not accept; `_init_sources` is modelled with an explicit
check of each passed keyword name against the parameter list of the
called constructor.  The CORE_API_KEY and UNPAYWALL_EMAIL environment
fallbacks of the constructors are taken as unset. -/

/-- Configuration dictionary (the keys `_init_sources` reads). -/
structure Config where
  sources : List (String × Bool) := []
  apiKeys : List (String × String) := []
  maxResultsPerSource : Nat := 50
  downloadPdfs : Bool := true
  newsSourcesCount : Nat := 5

/-- Reading `config.get("sources", {}).get(name, dflt)`. -/
def cfgSource (c : Config) (name : String) (dflt : Bool) : Bool :=
  (alookup name c.sources).getD dflt

/-- Reading `config.get("api_keys", {}).get(name, "")`. -/
def cfgKey (c : Config) (name : String) : String :=
  (alookup name c.apiKeys).getD ""

/-- The Python exception surfaced by manager construction. -/
inductive PyError where
  | typeError (kwarg : String)
deriving DecidableEq

/-- Parameter names of `BaseSource.__init__` (academic.py line 25). -/
def baseSourceParams : List String :=
  ["download_dir", "max_results", "download_pdfs", "timeout"]

/-- Parameter names of the constructors taking an api key
(`SemanticScholarSource`, `CoreSource`). -/
def apiKeySourceParams : List String := baseSourceParams ++ ["api_key"]

/-- Parameter names of the constructors taking an email
(`CrossrefSource`, `UnpaywallSource`). -/
def emailSourceParams : List String := baseSourceParams ++ ["email"]

/-- Parameter names of `NewsSource.__init__` (news.py line 20). -/
def newsSourceParams : List String := ["download_dir", "max_results"]

/-- Python keyword-argument check: the first passed name the callee does
not accept raises `TypeError`. -/
def checkCall (accepted passed : List String) : Except PyError Unit :=
  match passed.find? (fun k => !(accepted.contains k)) with
  | some k => .error (.typeError k)
  | none => .ok ()

/-- One guarded construction step of `_init_sources`. -/
def addSrc (s : List (String × SourceInst)) (enabled : Bool)
    (accepted passed : List String) (name : String) (inst : SourceInst) :
    Except PyError (List (String × SourceInst)) :=
  if enabled then do
    let _ ← checkCall accepted passed
    pure (s ++ [(name, inst)])
  else pure s

/-- Model of `SourceManager._init_sources`, construction order and
enable defaults as in manager.py lines 40 to 133 (the news source count
clamp on line 128 happens before the failing call and has no effect on
the outcome). -/
def initSources (c : Config) : Except PyError (List (String × SourceInst)) := do
  let acadCfg : SourceCfg :=
    { downloadDir := "academic", maxResults := c.maxResultsPerSource,
      downloadPdfs := c.downloadPdfs }
  let newsCfg : SourceCfg :=
    { downloadDir := "news", maxResults := c.maxResultsPerSource,
      downloadPdfs := c.downloadPdfs }
  let stdPassed := ["download_dir", "max_results", "download_pdfs"]
  let s : List (String × SourceInst) := []
  let s ← addSrc s (cfgSource c "arxiv" true) baseSourceParams stdPassed
    "arxiv" (.arxiv acadCfg)
  let s ← addSrc s (cfgSource c "scholar" true) baseSourceParams stdPassed
    "scholar" (.scholar acadCfg)
  let s ← addSrc s (cfgSource c "semantic_scholar" false) apiKeySourceParams
    (stdPassed ++ ["api_key"]) "semantic_scholar"
    (.semanticScholar acadCfg (cfgKey c "semantic_scholar"))
  let s ← addSrc s (cfgSource c "core" false) apiKeySourceParams
    (stdPassed ++ ["api_key"]) "core" (.core acadCfg (cfgKey c "core"))
  let s ← addSrc s (cfgSource c "crossref" false) emailSourceParams
    (stdPassed ++ ["email"]) "crossref"
    (.crossref acadCfg (cfgKey c "crossref_email"))
  let s ← addSrc s (cfgSource c "unpaywall" false) emailSourceParams
    (stdPassed ++ ["email"]) "unpaywall"
    (.unpaywall acadCfg (cfgKey c "unpaywall_email"))
  let s ← addSrc s (cfgSource c "pubmed" false) baseSourceParams
    (stdPassed ++ ["email"]) "pubmed" (.pubmed acadCfg)
  let s ← addSrc s (cfgSource c "doaj" false) baseSourceParams
    (stdPassed ++ ["api_key"]) "doaj" (.doaj acadCfg)
  let s ← addSrc s (cfgSource c "openaire" false) baseSourceParams stdPassed
    "openaire" (.openaire acadCfg)
  let s ← addSrc s (cfgSource c "news" true) newsSourceParams
    ["download_dir", "max_results", "news_sources_count"] "news"
    (.news newsCfg)
  pure s

/-! ## Concrete fixtures

Small closed inputs used by the witness and counterexample theorems. -/

/-- A fixed clock value. -/
def now0 : String := "2025-01-01T00:00:00"

/-- The quiet environment: no failures, empty network responses. -/
def env0 : Env :=
  { readFails := fun _ => false, writeFails := fun _ => false,
    downloadOk := fun _ => true, now := now0, crossrefEmailEnv := "",
    arxivNet := fun _ => Except.ok [], scholarNet := fun _ => Except.ok [],
    semanticNet := fun _ => Except.ok [], coreNet := fun _ => Except.ok [],
    crossrefNet := fun _ => Except.ok [],
    unpaywallNet := fun _ => Except.ok none,
    pubmedSearchNet := fun _ => Except.ok [],
    pubmedFetchNet := fun _ => Except.ok [],
    doajNet := fun _ => Except.ok [], openaireNet := fun _ => Except.ok [],
    newsNet := fun _ => Except.ok [] }

/-- A one-result source configuration. -/
def cfg1 : SourceCfg :=
  { downloadDir := "academic", maxResults := 1, downloadPdfs := true }

/-- A ten-result source configuration. -/
def cfg10 : SourceCfg :=
  { downloadDir := "academic", maxResults := 10, downloadPdfs := true }

/-- A news-directory configuration. -/
def cfgNews : SourceCfg :=
  { downloadDir := "news", maxResults := 10, downloadPdfs := true }

/-- A plain document. -/
def doc0 : Document :=
  { id := "d0", title := "A Tale", authors := ["Bob"], source := "arxiv" }

/-- First of a pair of case-variant documents from different sources. -/
def docA : Document :=
  { id := "a1", title := "Graph Neural Networks",
    authors := ["Ada Lovelace"], source := "arxiv" }

/-- Second of the pair: same title and authors up to letter case, a
different source and id. -/
def docB : Document :=
  { id := "b2", title := "GRAPH neural NETWORKS",
    authors := ["ADA LOVELACE"], source := "scholar" }

/-- A raw arXiv paper. -/
def paper0 : ArxivPaper :=
  { shortId := "p0", title := "A Tale", authors := ["Bob"], summary := "s",
    entryId := "u0", pdfUrl := "pu0", published := "2024" }

/-- A second raw arXiv paper with a different fingerprint. -/
def paperA : ArxivPaper :=
  { shortId := "pa", title := "ta", authors := [], summary := "",
    entryId := "", pdfUrl := "", published := "" }

/-- A third raw arXiv paper with yet another fingerprint. -/
def paperB : ArxivPaper :=
  { shortId := "pb", title := "tb", authors := [], summary := "",
    entryId := "", pdfUrl := "", published := "" }

/-- Environment whose arXiv search returns exactly `paper0`. -/
def envArxiv1 : Env := { env0 with arxivNet := fun _ => Except.ok [paper0] }

/-- Environment returning one distinct arXiv paper per keyword. -/
def envTwoKw : Env :=
  { env0 with arxivNet := fun kw =>
      Except.ok (if kw = "a" then [paperA] else [paperB]) }

/-- The fingerprint of the normalized `paper0` document. -/
def uid0 : String := generateUniqueId (arxivDoc now0 "k" paper0)

/-- The dedup record path of `uid0`. -/
def key0 : String := dedupPath "academic" uid0

/-- A state already holding the dedup record of `paper0`. -/
def fsDup : FS := { dedup := [(key0, projection (arxivDoc now0 "k" paper0))] }

/-- Environment where every dedup record read raises. -/
def envRF : Env := { envArxiv1 with readFails := fun _ => true }

/-- A raw Google Scholar record. -/
def pub0 : ScholarPub :=
  { title := "A Tale", authors := ["Bob"], abstract := "ab",
    pubUrl := "http://pub", eprintUrl := "http://pdf", pubYear := "2024" }

/-- Environment whose Scholar search returns exactly `pub0`. -/
def envScholar1 : Env := { env0 with scholarNet := fun _ => Except.ok [pub0] }

/-- A raw news article whose title contains the keyword `ta`. -/
def article0 : NewsArticle :=
  { url := "http://x/y.html", title := "a ta le", authors := ["Eve"],
    text := "body", summary := "sum", published := "2024",
    sourceUrl := "http://x" }

/-- Environment whose news crawl returns exactly `article0`. -/
def envNews1 : Env := { env0 with newsNet := fun _ => Except.ok [article0] }

/-- A fetcher that always succeeds with `[doc0]`. -/
def goodFetcher : Fetcher := fun _ _ fs => (Except.ok [doc0], fs)

/-- A fetcher that always raises. -/
def badFetcher : Fetcher := fun _ _ fs => (Except.error "boom", fs)

/-- The empty configuration dictionary. -/
def cfgEmpty : Config := {}

/-! ## Basic lemmas about the deduplicator -/

/-- The projection record ignores the unique id field. -/
theorem projection_update (d : Document) (x : Option String) :
    projection { d with uniqueId? := x } = projection d := rfl

/-- The deduplicator always returns the document with its unique id
filled in. -/
theorem isDuplicate_uid (env : Env) (dir : String) (fs : FS) (d : Document) :
    (isDuplicate env dir fs d).2.1.uniqueId? = some (docUid d) := by
  unfold isDuplicate
  split <;> split <;> rfl

/-- The deduplicator touches only the dedup component of the state. -/
theorem isDuplicate_frame (env : Env) (dir : String) (fs : FS) (d : Document) :
    (isDuplicate env dir fs d).2.2.metadata = fs.metadata ∧
    (isDuplicate env dir fs d).2.2.files = fs.files ∧
    (isDuplicate env dir fs d).2.2.netCalls = fs.netCalls ∧
    (isDuplicate env dir fs d).2.2.downloads = fs.downloads := by
  unfold isDuplicate
  split <;> split <;> simp

/-- The flag, the returned document and the resulting dedup store of
the deduplicator depend on the state only through its dedup store. -/
theorem isDuplicate_dedup_dep (env : Env) (dir : String) (d : Document)
    (fs₁ fs₂ : FS) (h : fs₁.dedup = fs₂.dedup) :
    (isDuplicate env dir fs₁ d).1 = (isDuplicate env dir fs₂ d).1 ∧
    (isDuplicate env dir fs₁ d).2.1 = (isDuplicate env dir fs₂ d).2.1 ∧
    (isDuplicate env dir fs₁ d).2.2.dedup = (isDuplicate env dir fs₂ d).2.2.dedup := by
  unfold isDuplicate
  rw [h]
  split <;> split <;> simp [h]

/-- Lookup survives prepending an entry. -/
theorem alookup_cons_isSome {β : Type} (k j : String) (v : β)
    (l : List (String × β)) (h : (alookup k l).isSome = true) :
    (alookup k ((j, v) :: l)).isSome = true := by
  unfold alookup; split <;> simp [h]

/-- The deduplicator never removes dedup records. -/
theorem isDuplicate_dedup_mono (env : Env) (dir : String) (fs : FS)
    (d : Document) (k : String) (h : (alookup k fs.dedup).isSome = true) :
    (alookup k (isDuplicate env dir fs d).2.2.dedup).isSome = true := by
  unfold isDuplicate
  split <;> split <;>
    first
      | exact h
      | exact alookup_cons_isSome _ _ _ _ h

/-- The deduplicator changes the document only by filling in the
unique id. -/
theorem isDuplicate_doc (env : Env) (dir : String) (fs : FS) (d : Document) :
    (isDuplicate env dir fs d).2.1 = { d with uniqueId? := some (docUid d) } := by
  unfold isDuplicate
  split <;> split <;> rfl

/-- Saving metadata does not touch the dedup store. -/
theorem saveMetadata_dedup (cfg : SourceCfg) (fs : FS) (f : String)
    (d : Document) : (saveMetadata cfg fs f d).dedup = fs.dedup := rfl

/-- Downloading does not touch the metadata store. -/
theorem downloadIfAbsent_metadata (env : Env) (fs : FS) (url path : String) :
    (downloadIfAbsent env fs url path).metadata = fs.metadata := by
  unfold downloadIfAbsent downloadFile
  split <;> (try split) <;> simp

/-- Downloading does not touch the dedup store. -/
theorem downloadIfAbsent_dedup (env : Env) (fs : FS) (url path : String) :
    (downloadIfAbsent env fs url path).dedup = fs.dedup := by
  unfold downloadIfAbsent downloadFile
  split <;> (try split) <;> simp

/-- The empty-list equation of the per-document loop. -/
theorem processDocs_nil (env : Env) (cfg : SourceCfg) (pol : LoopPolicy)
    (preview : Bool) (fs : FS) :
    processDocs env cfg pol preview fs [] = ([], fs) := rfl

/-- The cons equation of the per-document loop for a duplicate head. -/
theorem processDocs_cons_dup (env : Env) (cfg : SourceCfg) (pol : LoopPolicy)
    (preview : Bool) (fs : FS) (d : Document) (ds : List Document)
    (h : (isDuplicate env cfg.downloadDir fs d).1 = true) :
    processDocs env cfg pol preview fs (d :: ds) =
      processDocs env cfg pol preview (isDuplicate env cfg.downloadDir fs d).2.2 ds := by
  simp [processDocs, h]

/-- The cons equation of the per-document loop for a fresh head. -/
theorem processDocs_cons_new (env : Env) (cfg : SourceCfg) (pol : LoopPolicy)
    (preview : Bool) (fs : FS) (d : Document) (ds : List Document)
    (h : (isDuplicate env cfg.downloadDir fs d).1 = false) :
    processDocs env cfg pol preview fs (d :: ds) =
      ((isDuplicate env cfg.downloadDir fs d).2.1 ::
        (processDocs env cfg pol preview
          (newDocState env cfg pol preview
            (isDuplicate env cfg.downloadDir fs d).2.1
            (isDuplicate env cfg.downloadDir fs d).2.2) ds).1,
       (processDocs env cfg pol preview
          (newDocState env cfg pol preview
            (isDuplicate env cfg.downloadDir fs d).2.1
            (isDuplicate env cfg.downloadDir fs d).2.2) ds).2) := by
  simp [processDocs, h]

/-- Metadata content of the fresh-document state update. -/
theorem newDocState_metadata (env : Env) (cfg : SourceCfg) (pol : LoopPolicy)
    (preview : Bool) (doc : Document) (fs : FS) :
    (newDocState env cfg pol preview doc fs).metadata =
      if pol.metaAlways || !preview then
        (metaPath cfg (pol.pre ++ doc.id ++ ".json"), doc) :: fs.metadata
      else fs.metadata := by
  unfold newDocState
  split <;> split <;> simp [saveMetadata, downloadIfAbsent_metadata]

/-! ## Claim C1 -/

/-- C1: for every document, `_is_duplicate` returns true exactly when a
dedup record keyed by the unique id of the document is already in the
store; it returns the document with its unique id computed first; a
duplicate leaves the store untouched; a new document writes the
projection record (title, authors, source, id, url) under that key and
yields false.  The hypotheses state that the record read and write of
the store succeed (the failure paths are the subject of C10). -/
theorem c1_check_and_record_contract (env : Env) (dir : String) (fs : FS)
    (d : Document)
    (hr : env.readFails (dedupPath dir (docUid d)) = false)
    (hw : env.writeFails (dedupPath dir (docUid d)) = false) :
    ((isDuplicate env dir fs d).1 = true ↔
      (alookup (dedupPath dir (docUid d)) fs.dedup).isSome = true) ∧
    (isDuplicate env dir fs d).2.1.uniqueId? = some (docUid d) ∧
    ((isDuplicate env dir fs d).1 = true →
      (isDuplicate env dir fs d).2.2 = fs) ∧
    ((isDuplicate env dir fs d).1 = false →
      (isDuplicate env dir fs d).2.2 =
        { fs with dedup :=
            (dedupPath dir (docUid d), projection (isDuplicate env dir fs d).2.1)
              :: fs.dedup }) := by
  unfold isDuplicate
  cases hv : alookup (dedupPath dir (docUid d)) fs.dedup with
  | some v => simp [hv, hr]
  | none => simp [hv, hw, projection_update]

/-- C1 witness: the contract instantiated at a concrete document, a
concrete environment and the empty store. -/
theorem c1_check_and_record_contract_witness :
    env0.readFails (dedupPath "academic" (docUid doc0)) = false ∧
    env0.writeFails (dedupPath "academic" (docUid doc0)) = false ∧
    (((isDuplicate env0 "academic" {} doc0).1 = true ↔
        (alookup (dedupPath "academic" (docUid doc0)) (FS.dedup {})).isSome = true) ∧
      (isDuplicate env0 "academic" {} doc0).2.1.uniqueId? = some (docUid doc0) ∧
      ((isDuplicate env0 "academic" {} doc0).1 = true →
        (isDuplicate env0 "academic" {} doc0).2.2 = {}) ∧
      ((isDuplicate env0 "academic" {} doc0).1 = false →
        (isDuplicate env0 "academic" {} doc0).2.2 =
          { ({} : FS) with dedup :=
              (dedupPath "academic" (docUid doc0),
                projection (isDuplicate env0 "academic" {} doc0).2.1)
                :: (FS.dedup {}) })) :=
  ⟨rfl, rfl, c1_check_and_record_contract env0 "academic" {} doc0 rfl rfl⟩

/-! ## Claim C2 -/

/-- C2: the fingerprint is a function of the pair (title, authors)
alone, and is invariant under case changes of the lower-cased
concatenation of title and authors; any two documents agreeing there
receive the same unique id regardless of source or any other field. -/
theorem c2_unique_id_stable :
    (∀ d1 d2 : Document, d1.title = d2.title → d1.authors = d2.authors →
      generateUniqueId d1 = generateUniqueId d2) ∧
    (∀ d1 d2 : Document,
      pyLower (d1.title ++ String.join d1.authors) =
        pyLower (d2.title ++ String.join d2.authors) →
      generateUniqueId d1 = generateUniqueId d2) := by
  constructor
  · intro d1 d2 ht ha; unfold generateUniqueId; rw [ht, ha]
  · intro d1 d2 h; unfold generateUniqueId; rw [h]

/-- C2 witness: two documents with case-variant title and authors from
different sources share the fingerprint. -/
theorem c2_unique_id_stable_witness :
    pyLower (docA.title ++ String.join docA.authors) =
      pyLower (docB.title ++ String.join docB.authors) ∧
    generateUniqueId docA = generateUniqueId docB :=
  ⟨by decide, c2_unique_id_stable.2 docA docB (by decide)⟩

/-! ## Claim C10 -/

/-- C10: a failing read of an existing dedup record, and a failing
write of a new one, both make `_is_duplicate` report false and leave
the store unchanged; consequently a document whose fingerprint is
already recorded is persisted again when the record read fails, so the
at-most-once persistence gate needs every store access to succeed.  The
third part exhibits this on the arXiv fetch path: with the record
present but unreadable, the fetch returns the document and writes its
metadata file again. -/
theorem c10_store_error_gate (env : Env) :
    (∀ (dir : String) (fs : FS) (d : Document),
      (alookup (dedupPath dir (docUid d)) fs.dedup).isSome = true →
      env.readFails (dedupPath dir (docUid d)) = true →
      (isDuplicate env dir fs d).1 = false ∧
        (isDuplicate env dir fs d).2.2 = fs) ∧
    (∀ (dir : String) (fs : FS) (d : Document),
      alookup (dedupPath dir (docUid d)) fs.dedup = none →
      env.writeFails (dedupPath dir (docUid d)) = true →
      (isDuplicate env dir fs d).1 = false ∧
        (isDuplicate env dir fs d).2.2 = fs) ∧
    (∀ (cfg : SourceCfg) (kw : String) (p : ArxivPaper) (fs : FS),
      env.arxivNet kw = Except.ok [p] →
      1 ≤ cfg.maxResults →
      (alookup (dedupPath cfg.downloadDir (docUid (arxivDoc env.now kw p)))
        fs.dedup).isSome = true →
      env.readFails (dedupPath cfg.downloadDir (docUid (arxivDoc env.now kw p))) =
        true →
      (arxivFetchSingle env cfg kw false fs).1 ≠ [] ∧
      (alookup (metaPath cfg ("arxiv_" ++ p.shortId ++ ".json"))
        (arxivFetchSingle env cfg kw false fs).2.metadata).isSome = true) := by
  have hread : ∀ (dir : String) (fs : FS) (d : Document),
      (alookup (dedupPath dir (docUid d)) fs.dedup).isSome = true →
      env.readFails (dedupPath dir (docUid d)) = true →
      (isDuplicate env dir fs d).1 = false ∧
        (isDuplicate env dir fs d).2.2 = fs := by
    intro dir fs d hl hr
    unfold isDuplicate
    cases hv : alookup (dedupPath dir (docUid d)) fs.dedup with
    | none => rw [hv] at hl; simp at hl
    | some v => simp [hv, hr]
  have hwrite : ∀ (dir : String) (fs : FS) (d : Document),
      alookup (dedupPath dir (docUid d)) fs.dedup = none →
      env.writeFails (dedupPath dir (docUid d)) = true →
      (isDuplicate env dir fs d).1 = false ∧
        (isDuplicate env dir fs d).2.2 = fs := by
    intro dir fs d hl hw
    unfold isDuplicate
    cases hv : alookup (dedupPath dir (docUid d)) fs.dedup with
    | none => simp [hv, hw]
    | some v => rw [hv] at hl; simp at hl
  refine ⟨hread, hwrite, ?_⟩
  intro cfg kw p fs hnet hmax hlk hrf
  unfold arxivFetchSingle searchFetchSingle
  rw [hnet]
  simp only [Except.map]
  rw [List.take_of_length_le (by simpa using hmax)]
  simp only [List.map_cons, List.map_nil]
  set d0 := arxivDoc env.now kw p with hd0
  set fsn := addNet fs ("arxiv:search:" ++ kw) with hfsn
  have hlk2 : (alookup (dedupPath cfg.downloadDir (docUid d0)) fsn.dedup).isSome = true := by
    simpa [hfsn, addNet] using hlk
  obtain ⟨hflag, hst⟩ := hread cfg.downloadDir fsn d0 hlk2 hrf
  rw [processDocs_cons_new env cfg arxivPolicy false fsn d0 [] hflag]
  rw [processDocs_nil]
  have hid : (isDuplicate env cfg.downloadDir fsn d0).2.1.id = p.shortId := by
    rw [isDuplicate_doc]
    simp [hd0, arxivDoc]
  constructor
  · simp
  · rw [newDocState_metadata]
    simp only [arxivPolicy, hid, hst]
    simp [alookup, metaPath]

/-- C10 witness: concrete run where the dedup record of the fetched
paper exists, every record read raises, and the paper is returned and
its metadata written again. -/
theorem c10_store_error_gate_witness :
    envRF.arxivNet "k" = Except.ok [paper0] ∧
    1 ≤ cfg10.maxResults ∧
    (alookup (dedupPath cfg10.downloadDir (docUid (arxivDoc envRF.now "k" paper0)))
      fsDup.dedup).isSome = true ∧
    envRF.readFails
      (dedupPath cfg10.downloadDir (docUid (arxivDoc envRF.now "k" paper0))) = true ∧
    ((arxivFetchSingle envRF cfg10 "k" false fsDup).1 ≠ [] ∧
      (alookup (metaPath cfg10 ("arxiv_" ++ paper0.shortId ++ ".json"))
        (arxivFetchSingle envRF cfg10 "k" false fsDup).2.metadata).isSome = true) :=
  have hkey : dedupPath cfg10.downloadDir (docUid (arxivDoc envRF.now "k" paper0)) =
      key0 := by
    simp [cfg10, envRF, envArxiv1, env0, docUid, arxivDoc, key0, uid0, now0]
  have hlk : (alookup
      (dedupPath cfg10.downloadDir (docUid (arxivDoc envRF.now "k" paper0)))
      fsDup.dedup).isSome = true := by
    rw [hkey]; simp [fsDup, alookup]
  ⟨rfl, by decide, hlk, rfl,
    (c10_store_error_gate envRF).2.2 cfg10 "k" paper0 fsDup rfl (by decide) hlk rfl⟩

/-! ## Claim C8 -/

/-- Case split on a result in the construction monad: it is a raised
TypeError or a value. -/
theorem pyExceptCases {α : Type} (x : Except PyError α) :
    (∃ k, x = Except.error (PyError.typeError k)) ∨ ∃ a, x = Except.ok a := by
  cases x with
  | error e => cases e with | typeError k => exact Or.inl ⟨k, rfl⟩
  | ok a => exact Or.inr ⟨a, rfl⟩

/-- A chain whose tail always raises a TypeError raises a TypeError. -/
theorem initChain {α β : Type} (x : Except PyError α)
    (f : α → Except PyError β)
    (hf : ∀ a, ∃ k, f a = Except.error (PyError.typeError k)) :
    ∃ k, (x >>= f) = Except.error (PyError.typeError k) := by
  rcases pyExceptCases x with ⟨k, hk⟩ | ⟨a, ha⟩
  · exact ⟨k, by rw [hk]; rfl⟩
  · rcases hf a with ⟨k, hk⟩
    exact ⟨k, by rw [ha]; exact hk⟩

/-- The news construction step raises the `news_sources_count`
TypeError whenever the news source is enabled. -/
theorem addSrc_news_raises (c : Config) (s : List (String × SourceInst))
    (inst : SourceInst) (hn : cfgSource c "news" true = true) :
    addSrc s (cfgSource c "news" true) newsSourceParams
      ["download_dir", "max_results", "news_sources_count"] "news" inst =
      Except.error (PyError.typeError "news_sources_count") := by
  rw [addSrc, hn]
  rfl

/-- C8: constructing a SourceManager from a configuration whose sources
mapping leaves the news source enabled (the default when the mapping
omits it) raises a TypeError: `_init_sources` passes a
`news_sources_count` keyword argument that `NewsSource.__init__` does
not accept, so initialization cannot complete. -/
theorem c8_manager_init_raises (c : Config)
    (hn : cfgSource c "news" true = true) :
    ∃ kwarg, initSources c = Except.error (PyError.typeError kwarg) := by
  unfold initSources
  apply initChain; intro s
  apply initChain; intro s
  apply initChain; intro s
  apply initChain; intro s
  apply initChain; intro s
  apply initChain; intro s
  apply initChain; intro s
  apply initChain; intro s
  apply initChain; intro s
  refine ⟨"news_sources_count", ?_⟩
  rw [addSrc_news_raises c s _ hn]
  rfl

/-- C8 witness: the empty configuration (news enabled by default)
raises. -/
theorem c8_manager_init_raises_witness :
    cfgSource cfgEmpty "news" true = true ∧
    ∃ kwarg, initSources cfgEmpty = Except.error (PyError.typeError kwarg) :=
  ⟨rfl, c8_manager_init_raises cfgEmpty rfl⟩

/-! ## Claim C3 -/

/-- With no source-type filter no source is skipped. -/
theorem skipSource_none (name : String) : skipSource none name = false := rfl

/-- The fetch loop splits over list append, threading the state. -/
theorem fetchLoop_append (kws : List String) (stype : Option String)
    (xs ys : List (String × Fetcher)) (fs : FS) :
    fetchLoop kws stype fs (xs ++ ys) =
      ((fetchLoop kws stype fs xs).1 ++
        (fetchLoop kws stype (fetchLoop kws stype fs xs).2 ys).1,
       (fetchLoop kws stype (fetchLoop kws stype fs xs).2 ys).2) := by
  induction xs generalizing fs with
  | nil => simp [fetchLoop]
  | cons p rest ih =>
      simp only [List.cons_append, fetchLoop]
      by_cases hs : skipSource stype p.1
      · simp [hs, ih]
      · simp [hs, ih]

/-- C3: for every keyword list and source set, when one source raises
at its point in the loop, `fetch_documents` still returns the
documents shape: the preceding and following sources contribute their
actual results and the failing source contributes an empty list; the
call itself returns a value (it never propagates the exception). -/
theorem c3_source_failure_isolation (pre suf : List (String × Fetcher))
    (name : String) (f : Fetcher) (kws : List String) (fs : FS) (e : String)
    (hkw : kws ≠ [])
    (hf : (f kws false (fetchLoop kws none fs pre).2).1 = Except.error e) :
    (fetchDocuments (pre ++ (name, f) :: suf) kws false none fs).1 =
      ManagerResult.documents
        ((fetchLoop kws none fs pre).1 ++ (name, []) ::
          (fetchLoop kws none (f kws false (fetchLoop kws none fs pre).2).2
            suf).1) := by
  unfold fetchDocuments
  rw [if_neg hkw]
  simp only [Bool.false_eq_true, if_false]
  rw [fetchLoop_append]
  simp only [fetchLoop, skipSource_none, Bool.false_eq_true, if_false]
  rw [hf]

/-- C3 witness: a concrete two-source manager where the second source
raises and the first still reports its document. -/
theorem c3_source_failure_isolation_witness :
    (["k"] : List String) ≠ [] ∧
    (badFetcher ["k"] false
      (fetchLoop ["k"] none ({} : FS) [("good", goodFetcher)]).2).1 =
      Except.error "boom" ∧
    (fetchDocuments ([("good", goodFetcher)] ++ [("bad", badFetcher)]) ["k"]
        false none {}).1 =
      ManagerResult.documents
        ((fetchLoop ["k"] none ({} : FS) [("good", goodFetcher)]).1 ++
          ("bad", []) ::
          (fetchLoop ["k"] none
            (badFetcher ["k"] false
              (fetchLoop ["k"] none ({} : FS) [("good", goodFetcher)]).2).2
            []).1) :=
  ⟨by decide, rfl,
    c3_source_failure_isolation [("good", goodFetcher)] [] "bad" badFetcher
      ["k"] {} "boom" (by decide) rfl⟩

/-! ## Claim C9 -/

/-- C9: with a non-empty keyword list and `preview_first` set,
`fetch_documents` returns the empty mapping when the total preview
count is zero and otherwise the preview counts mapping; it never
returns the source-to-document-list shape. -/
theorem c9_preview_first_returns_counts (srcs : List (String × Fetcher))
    (kws : List String) (stype : Option String) (fs : FS) (hkw : kws ≠ []) :
    (((previewDocuments srcs kws stype fs).1.map (fun e => e.2)).sum = 0 →
      (fetchDocuments srcs kws true stype fs).1 = ManagerResult.emptyDict) ∧
    (((previewDocuments srcs kws stype fs).1.map (fun e => e.2)).sum ≠ 0 →
      (fetchDocuments srcs kws true stype fs).1 =
        ManagerResult.counts (previewDocuments srcs kws stype fs).1) ∧
    (∀ m, (fetchDocuments srcs kws true stype fs).1 ≠
      ManagerResult.documents m) := by
  unfold fetchDocuments
  rw [if_neg hkw]
  refine ⟨fun h => by simp [h], fun h => by simp [h], fun m => ?_⟩
  by_cases h : ((previewDocuments srcs kws stype fs).1.map (fun e => e.2)).sum = 0 <;>
    simp [h]

/-- C9 witness: a one-source manager in preview-first mode returns the
counts mapping, never documents. -/
theorem c9_preview_first_returns_counts_witness :
    (["k"] : List String) ≠ [] ∧
    ((((previewDocuments [("good", goodFetcher)] ["k"] none {}).1.map
        (fun e => e.2)).sum = 0 →
      (fetchDocuments [("good", goodFetcher)] ["k"] true none {}).1 =
        ManagerResult.emptyDict) ∧
    ((((previewDocuments [("good", goodFetcher)] ["k"] none {}).1.map
        (fun e => e.2)).sum ≠ 0 →
      (fetchDocuments [("good", goodFetcher)] ["k"] true none {}).1 =
        ManagerResult.counts
          (previewDocuments [("good", goodFetcher)] ["k"] none {}).1)) ∧
    (∀ m, (fetchDocuments [("good", goodFetcher)] ["k"] true none {}).1 ≠
      ManagerResult.documents m)) :=
  ⟨by decide,
    c9_preview_first_returns_counts [("good", goodFetcher)] ["k"] none {}
      (by decide)⟩

/-! ## Claim C5 -/

/-- With no email every per-DOI resolution is skipped without effect. -/
theorem unpaywallLoop_no_email (env : Env) (cfg : SourceCfg) (preview : Bool) :
    ∀ (dois : List String) (fs : FS),
      unpaywallLoop env cfg "" preview fs dois = ([], fs) := by
  intro dois
  induction dois with
  | nil => intro fs; rfl
  | cons doi rest ih => intro fs; simp [unpaywallLoop, unpaywallFetchByDoi, ih]

/-- C5 counterexample: `UnpaywallSource.fetch` with an empty configured
email still issues a network request (the Crossref identifier query)
even though it returns an empty result, refuting the claim that every
credential-gated source performs no network call. -/
theorem c5_empty_credential_counterexample :
    (unpaywallFetch env0 cfg10 "" ["k"] false {}).1 = [] ∧
    (unpaywallFetch env0 cfg10 "" ["k"] false {}).2.netCalls ≠ [] := by
  decide

/-- C5 amended: `CoreSource` with an empty api key returns an empty
result immediately with no network call and no state change at all;
`UnpaywallSource` with an empty email returns an empty result but first
runs the full Crossref sub-fetch (network requests and dedup-store
writes included), performing no Unpaywall per-DOI request: its final
state is exactly the state after the Crossref preview sub-fetch. -/
theorem c5_credential_gating (env : Env) (cfg : SourceCfg) :
    (∀ (kw : String) (preview : Bool) (fs : FS),
      coreFetchSingle env cfg "" kw preview fs = ([], fs)) ∧
    (∀ (kws : List String) (preview : Bool) (fs : FS),
      unpaywallFetch env cfg "" kws preview fs =
        ([], (foldKeywords
          (crossrefFetchSingle env { cfg with downloadPdfs := false }
            env.crossrefEmailEnv) true fs kws).2)) := by
  constructor
  · intro kw preview fs; simp [coreFetchSingle]
  · intro kws preview fs
    unfold unpaywallFetch
    rw [unpaywallLoop_no_email]

/-! ## Claim C7 -/

/-- The per-document loop returns at most as many documents as it is
given. -/
theorem processDocs_length (env : Env) (cfg : SourceCfg) (pol : LoopPolicy)
    (preview : Bool) : ∀ (ds : List Document) (fs : FS),
    ((processDocs env cfg pol preview fs ds).1).length ≤ ds.length := by
  intro ds
  induction ds with
  | nil => intro fs; simp [processDocs]
  | cons d rest ih =>
      intro fs
      cases h : (isDuplicate env cfg.downloadDir fs d).1 with
      | true =>
          rw [processDocs_cons_dup _ _ _ _ _ _ _ h]
          exact Nat.le_trans (ih _) (by simp)
      | false =>
          rw [processDocs_cons_new _ _ _ _ _ _ _ h]
          simpa using ih _

/-- A single arXiv keyword fetch returns at most `max_results`
documents. -/
theorem arxivFetchSingle_length (env : Env) (cfg : SourceCfg) (kw : String)
    (preview : Bool) (fs : FS) :
    ((arxivFetchSingle env cfg kw preview fs).1).length ≤ cfg.maxResults := by
  unfold arxivFetchSingle searchFetchSingle
  cases h : env.arxivNet kw with
  | error e => simp [h, Except.map]
  | ok ps =>
      simp only [h, Except.map]
      refine Nat.le_trans (processDocs_length _ _ _ _ _ _) ?_
      simp

/-- Keyword fan-out multiplies a uniform per-keyword bound. -/
theorem foldKeywords_length_bound (f : String → Bool → FS → List Document × FS)
    (bound : Nat)
    (hf : ∀ kw preview fs, ((f kw preview fs).1).length ≤ bound) :
    ∀ (kws : List String) (preview : Bool) (fs : FS),
      ((foldKeywords f preview fs kws).1).length ≤ kws.length * bound := by
  intro kws
  induction kws with
  | nil => intro preview fs; simp [foldKeywords]
  | cons k rest ih =>
      intro preview fs
      simp only [foldKeywords, List.length_append, List.length_cons]
      have h1 := hf k preview fs
      have h2 := ih preview (f k preview fs).2
      rw [Nat.succ_mul]
      omega

/-- C7 counterexample: with `max_results` 1 and two keywords each
returning one distinct paper, the arXiv fetch returns two documents,
exceeding `max_results`. -/
theorem c7_keyword_list_counterexample :
    cfg1.maxResults <
      ((SourceInst.fetchList envTwoKw (SourceInst.arxiv cfg1) ["a", "b"] false
        {}).1).length := by
  decide

/-- C7 amended: a single-keyword arXiv fetch returns at most
`max_results` documents; a fetch over an ordered keyword list returns
at most `len(keywords) * max_results` documents (the per-keyword
results are concatenated, so the total is bounded per keyword, not
globally). -/
theorem c7_max_results_bound (env : Env) (cfg : SourceCfg) :
    (∀ (kw : String) (preview : Bool) (fs : FS),
      ((arxivFetchSingle env cfg kw preview fs).1).length ≤ cfg.maxResults) ∧
    (∀ (kws : List String) (preview : Bool) (fs : FS),
      ((SourceInst.fetchList env (SourceInst.arxiv cfg) kws preview fs).1).length ≤
        kws.length * cfg.maxResults) := by
  refine ⟨fun kw preview fs => arxivFetchSingle_length env cfg kw preview fs, ?_⟩
  intro kws preview fs
  exact foldKeywords_length_bound _ _
    (fun kw pv f => arxivFetchSingle_length env cfg kw pv f) kws preview fs

/-! ## Preview invariance

The returned document list and the dedup evolution of every source
fetch are independent of the preview flag and depend on the state only
through its dedup store.  This is the load-bearing fact behind the
preview/fetch parity of the manager (claim C6) and the dedup-recording
half of preview mode (claim C4). -/

/-- The fresh-document update never touches the dedup store. -/
theorem newDocState_dedup (env : Env) (cfg : SourceCfg) (pol : LoopPolicy)
    (preview : Bool) (doc : Document) (fs : FS) :
    (newDocState env cfg pol preview doc fs).dedup = fs.dedup := by
  unfold newDocState
  split <;> split <;> simp [saveMetadata, downloadIfAbsent_dedup]

/-- News persistence never touches the dedup store. -/
theorem newsSave_dedup (cfg : SourceCfg) (fs : FS) (d : Document) :
    (newsSave cfg fs d).dedup = fs.dedup := rfl

/-- Preview invariance of the shared per-document loop. -/
theorem processDocs_inv (env : Env) (cfg : SourceCfg) (pol : LoopPolicy) :
    ∀ (ds : List Document) (pv₁ pv₂ : Bool) (fs₁ fs₂ : FS),
      fs₁.dedup = fs₂.dedup →
      (processDocs env cfg pol pv₁ fs₁ ds).1 =
        (processDocs env cfg pol pv₂ fs₂ ds).1 ∧
      (processDocs env cfg pol pv₁ fs₁ ds).2.dedup =
        (processDocs env cfg pol pv₂ fs₂ ds).2.dedup := by
  intro ds
  induction ds with
  | nil => intro pv₁ pv₂ fs₁ fs₂ h; simpa [processDocs] using h
  | cons d rest ih =>
      intro pv₁ pv₂ fs₁ fs₂ h
      obtain ⟨hb, hd, hs⟩ := isDuplicate_dedup_dep env cfg.downloadDir d fs₁ fs₂ h
      cases hf : (isDuplicate env cfg.downloadDir fs₁ d).1 with
      | true =>
          rw [processDocs_cons_dup _ _ _ _ _ _ _ hf,
              processDocs_cons_dup _ _ _ _ _ _ _ (hb ▸ hf)]
          exact ih pv₁ pv₂ _ _ hs
      | false =>
          rw [processDocs_cons_new _ _ _ _ _ _ _ hf,
              processDocs_cons_new _ _ _ _ _ _ _ (hb ▸ hf)]
          have hs2 : (newDocState env cfg pol pv₁
              (isDuplicate env cfg.downloadDir fs₁ d).2.1
              (isDuplicate env cfg.downloadDir fs₁ d).2.2).dedup =
            (newDocState env cfg pol pv₂
              (isDuplicate env cfg.downloadDir fs₂ d).2.1
              (isDuplicate env cfg.downloadDir fs₂ d).2.2).dedup := by
            rw [newDocState_dedup, newDocState_dedup, hs]
          obtain ⟨h1, h2⟩ := ih pv₁ pv₂ _ _ hs2
          exact ⟨by rw [h1, hd], h2⟩

/-- Preview invariance of the shared single-keyword search shape. -/
theorem searchFetchSingle_inv (env : Env) (cfg : SourceCfg) (pol : LoopPolicy)
    (label : String) (resp : Except String (List Document)) :
    ∀ (pv₁ pv₂ : Bool) (fs₁ fs₂ : FS), fs₁.dedup = fs₂.dedup →
      (searchFetchSingle env cfg pol label resp pv₁ fs₁).1 =
        (searchFetchSingle env cfg pol label resp pv₂ fs₂).1 ∧
      (searchFetchSingle env cfg pol label resp pv₁ fs₁).2.dedup =
        (searchFetchSingle env cfg pol label resp pv₂ fs₂).2.dedup := by
  intro pv₁ pv₂ fs₁ fs₂ h
  unfold searchFetchSingle
  cases resp with
  | error e => simpa [addNet] using h
  | ok docs =>
      exact processDocs_inv env cfg pol docs pv₁ pv₂ _ _ (by simpa [addNet] using h)

/-- Preview invariance lifts through the keyword fan-out. -/
theorem foldKeywords_inv (f : String → Bool → FS → List Document × FS)
    (hf : ∀ (kw : String) (pv₁ pv₂ : Bool) (fs₁ fs₂ : FS),
      fs₁.dedup = fs₂.dedup →
      (f kw pv₁ fs₁).1 = (f kw pv₂ fs₂).1 ∧
      (f kw pv₁ fs₁).2.dedup = (f kw pv₂ fs₂).2.dedup) :
    ∀ (kws : List String) (pv₁ pv₂ : Bool) (fs₁ fs₂ : FS),
      fs₁.dedup = fs₂.dedup →
      (foldKeywords f pv₁ fs₁ kws).1 = (foldKeywords f pv₂ fs₂ kws).1 ∧
      (foldKeywords f pv₁ fs₁ kws).2.dedup =
        (foldKeywords f pv₂ fs₂ kws).2.dedup := by
  intro kws
  induction kws with
  | nil => intro pv₁ pv₂ fs₁ fs₂ h; simpa [foldKeywords] using h
  | cons k rest ih =>
      intro pv₁ pv₂ fs₁ fs₂ h
      obtain ⟨h1, h2⟩ := hf k pv₁ pv₂ fs₁ fs₂ h
      obtain ⟨h3, h4⟩ := ih pv₁ pv₂ _ _ h2
      simp only [foldKeywords]
      exact ⟨by rw [h1, h3], h4⟩

/-- Preview invariance of the arXiv single-keyword fetch. -/
theorem arxivFetchSingle_inv (env : Env) (cfg : SourceCfg) (kw : String) :
    ∀ (pv₁ pv₂ : Bool) (fs₁ fs₂ : FS), fs₁.dedup = fs₂.dedup →
      (arxivFetchSingle env cfg kw pv₁ fs₁).1 =
        (arxivFetchSingle env cfg kw pv₂ fs₂).1 ∧
      (arxivFetchSingle env cfg kw pv₁ fs₁).2.dedup =
        (arxivFetchSingle env cfg kw pv₂ fs₂).2.dedup := by
  intro pv₁ pv₂ fs₁ fs₂ h
  exact searchFetchSingle_inv env cfg arxivPolicy _ _ pv₁ pv₂ fs₁ fs₂ h

/-- Preview invariance of the Scholar single-keyword fetch. -/
theorem scholarFetchSingle_inv (env : Env) (cfg : SourceCfg) (kw : String) :
    ∀ (pv₁ pv₂ : Bool) (fs₁ fs₂ : FS), fs₁.dedup = fs₂.dedup →
      (scholarFetchSingle env cfg kw pv₁ fs₁).1 =
        (scholarFetchSingle env cfg kw pv₂ fs₂).1 ∧
      (scholarFetchSingle env cfg kw pv₁ fs₁).2.dedup =
        (scholarFetchSingle env cfg kw pv₂ fs₂).2.dedup := by
  intro pv₁ pv₂ fs₁ fs₂ h
  exact searchFetchSingle_inv env cfg scholarPolicy _ _ pv₁ pv₂ fs₁ fs₂ h

/-- Preview invariance of the Semantic Scholar single-keyword fetch. -/
theorem semanticFetchSingle_inv (env : Env) (cfg : SourceCfg) (kw : String) :
    ∀ (pv₁ pv₂ : Bool) (fs₁ fs₂ : FS), fs₁.dedup = fs₂.dedup →
      (semanticFetchSingle env cfg kw pv₁ fs₁).1 =
        (semanticFetchSingle env cfg kw pv₂ fs₂).1 ∧
      (semanticFetchSingle env cfg kw pv₁ fs₁).2.dedup =
        (semanticFetchSingle env cfg kw pv₂ fs₂).2.dedup := by
  intro pv₁ pv₂ fs₁ fs₂ h
  exact searchFetchSingle_inv env cfg semanticPolicy _ _ pv₁ pv₂ fs₁ fs₂ h

/-- Preview invariance of the Crossref single-keyword fetch. -/
theorem crossrefFetchSingle_inv (env : Env) (cfg : SourceCfg) (mailto kw : String) :
    ∀ (pv₁ pv₂ : Bool) (fs₁ fs₂ : FS), fs₁.dedup = fs₂.dedup →
      (crossrefFetchSingle env cfg mailto kw pv₁ fs₁).1 =
        (crossrefFetchSingle env cfg mailto kw pv₂ fs₂).1 ∧
      (crossrefFetchSingle env cfg mailto kw pv₁ fs₁).2.dedup =
        (crossrefFetchSingle env cfg mailto kw pv₂ fs₂).2.dedup := by
  intro pv₁ pv₂ fs₁ fs₂ h
  exact searchFetchSingle_inv env cfg crossrefPolicy _ _ pv₁ pv₂ fs₁ fs₂ h

/-- Preview invariance of the DOAJ single-keyword fetch. -/
theorem doajFetchSingle_inv (env : Env) (cfg : SourceCfg) (kw : String) :
    ∀ (pv₁ pv₂ : Bool) (fs₁ fs₂ : FS), fs₁.dedup = fs₂.dedup →
      (doajFetchSingle env cfg kw pv₁ fs₁).1 =
        (doajFetchSingle env cfg kw pv₂ fs₂).1 ∧
      (doajFetchSingle env cfg kw pv₁ fs₁).2.dedup =
        (doajFetchSingle env cfg kw pv₂ fs₂).2.dedup := by
  intro pv₁ pv₂ fs₁ fs₂ h
  exact searchFetchSingle_inv env cfg doajPolicy _ _ pv₁ pv₂ fs₁ fs₂ h

/-- Preview invariance of the OpenAIRE single-keyword fetch. -/
theorem openaireFetchSingle_inv (env : Env) (cfg : SourceCfg) (kw : String) :
    ∀ (pv₁ pv₂ : Bool) (fs₁ fs₂ : FS), fs₁.dedup = fs₂.dedup →
      (openaireFetchSingle env cfg kw pv₁ fs₁).1 =
        (openaireFetchSingle env cfg kw pv₂ fs₂).1 ∧
      (openaireFetchSingle env cfg kw pv₁ fs₁).2.dedup =
        (openaireFetchSingle env cfg kw pv₂ fs₂).2.dedup := by
  intro pv₁ pv₂ fs₁ fs₂ h
  exact searchFetchSingle_inv env cfg openairePolicy _ _ pv₁ pv₂ fs₁ fs₂ h

/-- Preview invariance of the CORE single-keyword fetch. -/
theorem coreFetchSingle_inv (env : Env) (cfg : SourceCfg) (apiKey kw : String) :
    ∀ (pv₁ pv₂ : Bool) (fs₁ fs₂ : FS), fs₁.dedup = fs₂.dedup →
      (coreFetchSingle env cfg apiKey kw pv₁ fs₁).1 =
        (coreFetchSingle env cfg apiKey kw pv₂ fs₂).1 ∧
      (coreFetchSingle env cfg apiKey kw pv₁ fs₁).2.dedup =
        (coreFetchSingle env cfg apiKey kw pv₂ fs₂).2.dedup := by
  intro pv₁ pv₂ fs₁ fs₂ h
  unfold coreFetchSingle
  by_cases hk : apiKey = ""
  · simp [hk, h]
  · rw [if_neg hk, if_neg hk]
    exact searchFetchSingle_inv env cfg corePolicy _ _ pv₁ pv₂ fs₁ fs₂ h

/-- Preview invariance of the PubMed single-keyword fetch. -/
theorem pubmedFetchSingle_inv (env : Env) (cfg : SourceCfg) (kw : String) :
    ∀ (pv₁ pv₂ : Bool) (fs₁ fs₂ : FS), fs₁.dedup = fs₂.dedup →
      (pubmedFetchSingle env cfg kw pv₁ fs₁).1 =
        (pubmedFetchSingle env cfg kw pv₂ fs₂).1 ∧
      (pubmedFetchSingle env cfg kw pv₁ fs₁).2.dedup =
        (pubmedFetchSingle env cfg kw pv₂ fs₂).2.dedup := by
  intro pv₁ pv₂ fs₁ fs₂ h
  unfold pubmedFetchSingle
  cases hs : env.pubmedSearchNet kw with
  | error e => simpa [addNet] using h
  | ok ids =>
      simp only
      by_cases hi : ids.take cfg.maxResults = []
      · simp [hi, addNet, h]
      · rw [if_neg hi, if_neg hi]
        cases hf : env.pubmedFetchNet (ids.take cfg.maxResults) with
        | error e => simpa [addNet] using h
        | ok arts =>
            exact processDocs_inv env cfg pubmedPolicy _ pv₁ pv₂ _ _
              (by simpa [addNet] using h)

/-- The news article write preserves the dedup store. -/
theorem newsHitState_dedup (env : Env) (cfg : SourceCfg) (kw : String)
    (preview : Bool) (count : Nat) (a : NewsArticle) (fs : FS) :
    (newsHitState env cfg kw preview count a fs).dedup = fs.dedup := by
  unfold newsHitState
  split <;> simp [newsSave_dedup]

/-- Equation of the news loop at the result cap. -/
theorem newsLoop_capped (env : Env) (cfg : SourceCfg) (kw : String)
    (preview : Bool) (count : Nat) (fs : FS) (a : NewsArticle)
    (rest : List NewsArticle) (hc : cfg.maxResults ≤ count) :
    newsLoop env cfg kw preview count fs (a :: rest) = ([], fs) := by
  simp [newsLoop, hc]

/-- Equation of the news loop on a matching article. -/
theorem newsLoop_cons_hit (env : Env) (cfg : SourceCfg) (kw : String)
    (preview : Bool) (count : Nat) (fs : FS) (a : NewsArticle)
    (rest : List NewsArticle) (hc : ¬cfg.maxResults ≤ count)
    (hm : newsMatch kw a = true) :
    newsLoop env cfg kw preview count fs (a :: rest) =
      (newsDoc env.now kw (newsArticleId a count) a ::
        (newsLoop env cfg kw preview (count + 1)
          (newsHitState env cfg kw preview count a fs) rest).1,
       (newsLoop env cfg kw preview (count + 1)
          (newsHitState env cfg kw preview count a fs) rest).2) := by
  simp [newsLoop, hc, hm, newsHitState]

/-- Equation of the news loop on a non-matching article. -/
theorem newsLoop_cons_skip (env : Env) (cfg : SourceCfg) (kw : String)
    (preview : Bool) (count : Nat) (fs : FS) (a : NewsArticle)
    (rest : List NewsArticle) (hc : ¬cfg.maxResults ≤ count)
    (hm : ¬newsMatch kw a = true) :
    newsLoop env cfg kw preview count fs (a :: rest) =
      newsLoop env cfg kw preview count fs rest := by
  simp [newsLoop, hc, hm]

/-- Preview invariance and dedup dependence of the news article loop. -/
theorem newsLoop_inv (env : Env) (cfg : SourceCfg) (kw : String) :
    ∀ (arts : List NewsArticle) (count : Nat) (pv₁ pv₂ : Bool) (fs₁ fs₂ : FS),
      fs₁.dedup = fs₂.dedup →
      (newsLoop env cfg kw pv₁ count fs₁ arts).1 =
        (newsLoop env cfg kw pv₂ count fs₂ arts).1 ∧
      (newsLoop env cfg kw pv₁ count fs₁ arts).2.dedup =
        (newsLoop env cfg kw pv₂ count fs₂ arts).2.dedup := by
  intro arts
  induction arts with
  | nil => intro count pv₁ pv₂ fs₁ fs₂ h; simpa [newsLoop] using h
  | cons a rest ih =>
      intro count pv₁ pv₂ fs₁ fs₂ h
      by_cases hc : cfg.maxResults ≤ count
      · rw [newsLoop_capped _ _ _ _ _ _ _ _ hc, newsLoop_capped _ _ _ _ _ _ _ _ hc]
        exact ⟨rfl, h⟩
      · by_cases hm : newsMatch kw a = true
        · rw [newsLoop_cons_hit _ _ _ _ _ _ _ _ hc hm,
              newsLoop_cons_hit _ _ _ _ _ _ _ _ hc hm]
          obtain ⟨h1, h2⟩ := ih (count + 1) pv₁ pv₂
            (newsHitState env cfg kw pv₁ count a fs₁)
            (newsHitState env cfg kw pv₂ count a fs₂)
            (by rw [newsHitState_dedup, newsHitState_dedup, h])
          exact ⟨by rw [h1], h2⟩
        · rw [newsLoop_cons_skip _ _ _ _ _ _ _ _ hc hm,
              newsLoop_cons_skip _ _ _ _ _ _ _ _ hc hm]
          exact ih count pv₁ pv₂ fs₁ fs₂ h

/-- Preview invariance of the news single-keyword fetch. -/
theorem newsFetchSingle_inv (env : Env) (cfg : SourceCfg) (kw : String) :
    ∀ (pv₁ pv₂ : Bool) (fs₁ fs₂ : FS), fs₁.dedup = fs₂.dedup →
      (newsFetchSingle env cfg kw pv₁ fs₁).1 =
        (newsFetchSingle env cfg kw pv₂ fs₂).1 ∧
      (newsFetchSingle env cfg kw pv₁ fs₁).2.dedup =
        (newsFetchSingle env cfg kw pv₂ fs₂).2.dedup := by
  intro pv₁ pv₂ fs₁ fs₂ h
  unfold newsFetchSingle
  cases hn : env.newsNet kw with
  | error e => simpa [addNet] using h
  | ok arts =>
      exact newsLoop_inv env cfg kw arts 0 pv₁ pv₂ _ _ (by simpa [addNet] using h)

/-- The Unpaywall persistence block never touches the dedup store. -/
theorem unpaywallWriteState_dedup (env : Env) (cfg : SourceCfg)
    (preview : Bool) (doc : Document) (fs : FS) :
    (unpaywallWriteState env cfg preview doc fs).dedup = fs.dedup := by
  unfold unpaywallWriteState
  split
  · split <;> simp [saveMetadata, downloadIfAbsent_dedup]
  · rfl

/-- Equation of the per-DOI resolution on an open-access hit. -/
theorem unpaywallFetchByDoi_oa (env : Env) (cfg : SourceCfg)
    (email doi : String) (preview : Bool) (fs : FS) (r : UnpaywallResp)
    (he : ¬email = "") (hn : env.unpaywallNet doi = Except.ok (some r))
    (ho : r.isOa = true) :
    unpaywallFetchByDoi env cfg email doi preview fs =
      (if (isDuplicate env cfg.downloadDir (addNet fs ("unpaywall:get:" ++ doi))
          (unpaywallDoc env.now doi r)).1 then
        (none, (isDuplicate env cfg.downloadDir
          (addNet fs ("unpaywall:get:" ++ doi)) (unpaywallDoc env.now doi r)).2.2)
      else
        (some (isDuplicate env cfg.downloadDir
            (addNet fs ("unpaywall:get:" ++ doi)) (unpaywallDoc env.now doi r)).2.1,
          unpaywallWriteState env cfg preview
            (isDuplicate env cfg.downloadDir
              (addNet fs ("unpaywall:get:" ++ doi)) (unpaywallDoc env.now doi r)).2.1
            (isDuplicate env cfg.downloadDir
              (addNet fs ("unpaywall:get:" ++ doi)) (unpaywallDoc env.now doi r)).2.2)) := by
  unfold unpaywallFetchByDoi
  rw [if_neg he, hn]
  simp [ho]

/-- Preview invariance of the per-DOI Unpaywall resolution. -/
theorem unpaywallFetchByDoi_inv (env : Env) (cfg : SourceCfg)
    (email doi : String) :
    ∀ (pv₁ pv₂ : Bool) (fs₁ fs₂ : FS), fs₁.dedup = fs₂.dedup →
      (unpaywallFetchByDoi env cfg email doi pv₁ fs₁).1 =
        (unpaywallFetchByDoi env cfg email doi pv₂ fs₂).1 ∧
      (unpaywallFetchByDoi env cfg email doi pv₁ fs₁).2.dedup =
        (unpaywallFetchByDoi env cfg email doi pv₂ fs₂).2.dedup := by
  intro pv₁ pv₂ fs₁ fs₂ h
  by_cases he : email = ""
  · simp [unpaywallFetchByDoi, he, h]
  · cases hn : env.unpaywallNet doi with
    | error e =>
        unfold unpaywallFetchByDoi
        rw [if_neg he, if_neg he, hn]
        simpa [addNet] using h
    | ok o =>
        cases o with
        | none =>
            unfold unpaywallFetchByDoi
            rw [if_neg he, if_neg he, hn]
            simpa [addNet] using h
        | some r =>
            cases ho : r.isOa with
            | false =>
                unfold unpaywallFetchByDoi
                rw [if_neg he, if_neg he, hn]
                simpa [ho, addNet] using h
            | true =>
                rw [unpaywallFetchByDoi_oa env cfg email doi pv₁ fs₁ r he hn ho,
                    unpaywallFetchByDoi_oa env cfg email doi pv₂ fs₂ r he hn ho]
                obtain ⟨hb, hd, hs⟩ := isDuplicate_dedup_dep env cfg.downloadDir
                  (unpaywallDoc env.now doi r)
                  (addNet fs₁ ("unpaywall:get:" ++ doi))
                  (addNet fs₂ ("unpaywall:get:" ++ doi)) (by simpa [addNet] using h)
                cases hf : (isDuplicate env cfg.downloadDir
                    (addNet fs₁ ("unpaywall:get:" ++ doi))
                    (unpaywallDoc env.now doi r)).1 with
                | true =>
                    have hf2 := hb ▸ hf
                    simp [hf2, hs]
                | false =>
                    have hf2 := hb ▸ hf
                    simp [hf2, hd, unpaywallWriteState_dedup, hs]

/-- Preview invariance of the Unpaywall per-DOI loop. -/
theorem unpaywallLoop_inv (env : Env) (cfg : SourceCfg) (email : String) :
    ∀ (dois : List String) (pv₁ pv₂ : Bool) (fs₁ fs₂ : FS),
      fs₁.dedup = fs₂.dedup →
      (unpaywallLoop env cfg email pv₁ fs₁ dois).1 =
        (unpaywallLoop env cfg email pv₂ fs₂ dois).1 ∧
      (unpaywallLoop env cfg email pv₁ fs₁ dois).2.dedup =
        (unpaywallLoop env cfg email pv₂ fs₂ dois).2.dedup := by
  intro dois
  induction dois with
  | nil => intro pv₁ pv₂ fs₁ fs₂ h; simpa [unpaywallLoop] using h
  | cons doi rest ih =>
      intro pv₁ pv₂ fs₁ fs₂ h
      obtain ⟨h1, h2⟩ := unpaywallFetchByDoi_inv env cfg email doi pv₁ pv₂ fs₁ fs₂ h
      obtain ⟨h3, h4⟩ := ih pv₁ pv₂ _ _ h2
      simp only [unpaywallLoop]
      exact ⟨by rw [h1, h3], h4⟩

/-- Preview invariance of the composed Unpaywall fetch. -/
theorem unpaywallFetch_inv (env : Env) (cfg : SourceCfg) (email : String)
    (kws : List String) :
    ∀ (pv₁ pv₂ : Bool) (fs₁ fs₂ : FS), fs₁.dedup = fs₂.dedup →
      (unpaywallFetch env cfg email kws pv₁ fs₁).1 =
        (unpaywallFetch env cfg email kws pv₂ fs₂).1 ∧
      (unpaywallFetch env cfg email kws pv₁ fs₁).2.dedup =
        (unpaywallFetch env cfg email kws pv₂ fs₂).2.dedup := by
  intro pv₁ pv₂ fs₁ fs₂ h
  simp only [unpaywallFetch]
  obtain ⟨h1, h2⟩ := foldKeywords_inv _
    (fun kw a b c d hh =>
      crossrefFetchSingle_inv env { cfg with downloadPdfs := false }
        env.crossrefEmailEnv kw a b c d hh)
    kws true true fs₁ fs₂ h
  rw [h1]
  exact unpaywallLoop_inv env cfg email _ pv₁ pv₂ _ _ h2

/-- Preview invariance of every source instance on a keyword list. -/
theorem fetchList_inv (env : Env) (inst : SourceInst) (kws : List String) :
    ∀ (pv₁ pv₂ : Bool) (fs₁ fs₂ : FS), fs₁.dedup = fs₂.dedup →
      (inst.fetchList env kws pv₁ fs₁).1 = (inst.fetchList env kws pv₂ fs₂).1 ∧
      (inst.fetchList env kws pv₁ fs₁).2.dedup =
        (inst.fetchList env kws pv₂ fs₂).2.dedup := by
  intro pv₁ pv₂ fs₁ fs₂ h
  cases inst with
  | arxiv cfg =>
      exact foldKeywords_inv _ (fun kw => arxivFetchSingle_inv env cfg kw)
        kws pv₁ pv₂ fs₁ fs₂ h
  | scholar cfg =>
      exact foldKeywords_inv _ (fun kw => scholarFetchSingle_inv env cfg kw)
        kws pv₁ pv₂ fs₁ fs₂ h
  | semanticScholar cfg apiKey =>
      exact foldKeywords_inv _ (fun kw => semanticFetchSingle_inv env cfg kw)
        kws pv₁ pv₂ fs₁ fs₂ h
  | core cfg apiKey =>
      exact foldKeywords_inv _ (fun kw => coreFetchSingle_inv env cfg apiKey kw)
        kws pv₁ pv₂ fs₁ fs₂ h
  | crossref cfg email =>
      exact foldKeywords_inv _ (fun kw => crossrefFetchSingle_inv env cfg email kw)
        kws pv₁ pv₂ fs₁ fs₂ h
  | unpaywall cfg email =>
      exact unpaywallFetch_inv env cfg email kws pv₁ pv₂ fs₁ fs₂ h
  | pubmed cfg =>
      exact foldKeywords_inv _ (fun kw => pubmedFetchSingle_inv env cfg kw)
        kws pv₁ pv₂ fs₁ fs₂ h
  | doaj cfg =>
      exact foldKeywords_inv _ (fun kw => doajFetchSingle_inv env cfg kw)
        kws pv₁ pv₂ fs₁ fs₂ h
  | openaire cfg =>
      exact foldKeywords_inv _ (fun kw => openaireFetchSingle_inv env cfg kw)
        kws pv₁ pv₂ fs₁ fs₂ h
  | news cfg =>
      exact foldKeywords_inv _ (fun kw => newsFetchSingle_inv env cfg kw)
        kws pv₁ pv₂ fs₁ fs₂ h

/-! ## Claim C6 -/

/-- Pointwise, the manager preview loop produces exactly the lengths of
the document lists the manager fetch loop produces, when both runs
start from dedup-equal states; the two runs also evolve the dedup store
identically. -/
theorem mgrFetchers_cons (env : Env) (s : String × SourceInst)
    (rest : List (String × SourceInst)) :
    mgrFetchers env (s :: rest) =
      (s.1, s.2.toFetcher env) :: mgrFetchers env rest := rfl

theorem previewLoop_counts (env : Env) :
    ∀ (srcs : List (String × SourceInst)) (kws : List String)
      (stype : Option String) (fs₁ fs₂ : FS), fs₁.dedup = fs₂.dedup →
      (previewLoop kws stype fs₁ (mgrFetchers env srcs)).1 =
        ((fetchLoop kws stype fs₂ (mgrFetchers env srcs)).1).map
          (fun p => (p.1, p.2.length)) ∧
      (previewLoop kws stype fs₁ (mgrFetchers env srcs)).2.dedup =
        (fetchLoop kws stype fs₂ (mgrFetchers env srcs)).2.dedup := by
  intro srcs
  induction srcs with
  | nil =>
      intro kws stype fs₁ fs₂ h
      simpa [mgrFetchers, previewLoop, fetchLoop] using h
  | cons s rest ih =>
      intro kws stype fs₁ fs₂ h
      cases hks : skipSource stype s.1 with
      | true =>
          simp only [mgrFetchers_cons, previewLoop, fetchLoop, hks, if_true]
          exact ih kws stype fs₁ fs₂ h
      | false =>
          obtain ⟨h1, h2⟩ := fetchList_inv env s.2 kws true false fs₁ fs₂ h
          obtain ⟨h3, h4⟩ := ih kws stype (s.2.fetchList env kws true fs₁).2
            (s.2.fetchList env kws false fs₂).2 h2
          simp only [mgrFetchers_cons, previewLoop, fetchLoop, hks,
            Bool.false_eq_true, if_false, SourceInst.toFetcher, List.map_cons]
          simp only [mgrFetchers] at h3 h4
          exact ⟨by rw [h1, h3], h4⟩

/-- C6: for every set of source instances, keyword list, source-type
filter and state, and for every source, the count reported by
`preview_documents` equals the length of the document list returned for
that source by `fetch_documents` run from the same state: the fetch
result is the documents mapping of the fetch loop, and the preview
result is exactly its pointwise length map. -/
theorem c6_preview_fetch_parity (env : Env)
    (srcs : List (String × SourceInst)) (kws : List String)
    (stype : Option String) (fs : FS) (hkw : kws ≠ []) :
    (fetchDocuments (mgrFetchers env srcs) kws false stype fs).1 =
      ManagerResult.documents (fetchLoop kws stype fs (mgrFetchers env srcs)).1 ∧
    (previewDocuments (mgrFetchers env srcs) kws stype fs).1 =
      ((fetchLoop kws stype fs (mgrFetchers env srcs)).1).map
        (fun p => (p.1, p.2.length)) := by
  constructor
  · unfold fetchDocuments
    rw [if_neg hkw]
    simp
  · unfold previewDocuments
    rw [if_neg hkw]
    exact (previewLoop_counts env srcs kws stype fs fs rfl).1

/-- C6 witness: a one-source arXiv manager with one paper available;
the preview count is the length of the fetched document list. -/
theorem c6_preview_fetch_parity_witness :
    (["k"] : List String) ≠ [] ∧
    ((fetchDocuments (mgrFetchers envArxiv1 [("arxiv", SourceInst.arxiv cfg1)])
        ["k"] false none {}).1 =
      ManagerResult.documents
        (fetchLoop ["k"] none {}
          (mgrFetchers envArxiv1 [("arxiv", SourceInst.arxiv cfg1)])).1 ∧
    (previewDocuments (mgrFetchers envArxiv1 [("arxiv", SourceInst.arxiv cfg1)])
        ["k"] none {}).1 =
      ((fetchLoop ["k"] none {}
        (mgrFetchers envArxiv1 [("arxiv", SourceInst.arxiv cfg1)])).1).map
        (fun p => (p.1, p.2.length))) :=
  ⟨by decide,
    c6_preview_fetch_parity envArxiv1 [("arxiv", SourceInst.arxiv cfg1)] ["k"]
      none {} (by decide)⟩

/-! ## Claim C4 -/

/-- Under a preview run, a policy that guards its metadata save leaves
the state of a fresh document completely unchanged. -/
theorem newDocState_preview_id (env : Env) (cfg : SourceCfg)
    (pol : LoopPolicy) (doc : Document) (fs : FS)
    (hm : pol.metaAlways = false) :
    newDocState env cfg pol true doc fs = fs := by
  unfold newDocState
  simp [hm]

/-- Under a preview run no policy creates files or downloads. -/
theorem newDocState_preview_files (env : Env) (cfg : SourceCfg)
    (pol : LoopPolicy) (doc : Document) (fs : FS) :
    (newDocState env cfg pol true doc fs).files = fs.files ∧
    (newDocState env cfg pol true doc fs).downloads = fs.downloads := by
  unfold newDocState
  split <;> simp [saveMetadata]

/-- Preview frame of the per-document loop for metadata-guarding
policies: no metadata, file or download effect. -/
theorem processDocs_preview_frame (env : Env) (cfg : SourceCfg)
    (pol : LoopPolicy) (hm : pol.metaAlways = false) :
    ∀ (ds : List Document) (fs : FS),
      (processDocs env cfg pol true fs ds).2.metadata = fs.metadata ∧
      (processDocs env cfg pol true fs ds).2.files = fs.files ∧
      (processDocs env cfg pol true fs ds).2.downloads = fs.downloads := by
  intro ds
  induction ds with
  | nil => intro fs; simp [processDocs]
  | cons d rest ih =>
      intro fs
      obtain ⟨hmet, hfil, hnet, hdl⟩ := isDuplicate_frame env cfg.downloadDir fs d
      cases hf : (isDuplicate env cfg.downloadDir fs d).1 with
      | true =>
          rw [processDocs_cons_dup _ _ _ _ _ _ _ hf]
          obtain ⟨a, b, c⟩ := ih (isDuplicate env cfg.downloadDir fs d).2.2
          exact ⟨by rw [a, hmet], by rw [b, hfil], by rw [c, hdl]⟩
      | false =>
          rw [processDocs_cons_new _ _ _ _ _ _ _ hf]
          rw [newDocState_preview_id env cfg pol _ _ hm]
          obtain ⟨a, b, c⟩ := ih (isDuplicate env cfg.downloadDir fs d).2.2
          exact ⟨by rw [a, hmet], by rw [b, hfil], by rw [c, hdl]⟩

/-- Preview frame of the per-document loop for every policy: no file or
download effect (metadata may still be written under `metaAlways`). -/
theorem processDocs_preview_files (env : Env) (cfg : SourceCfg)
    (pol : LoopPolicy) :
    ∀ (ds : List Document) (fs : FS),
      (processDocs env cfg pol true fs ds).2.files = fs.files ∧
      (processDocs env cfg pol true fs ds).2.downloads = fs.downloads := by
  intro ds
  induction ds with
  | nil => intro fs; simp [processDocs]
  | cons d rest ih =>
      intro fs
      obtain ⟨hmet, hfil, hnet, hdl⟩ := isDuplicate_frame env cfg.downloadDir fs d
      cases hf : (isDuplicate env cfg.downloadDir fs d).1 with
      | true =>
          rw [processDocs_cons_dup _ _ _ _ _ _ _ hf]
          obtain ⟨b, c⟩ := ih (isDuplicate env cfg.downloadDir fs d).2.2
          exact ⟨by rw [b, hfil], by rw [c, hdl]⟩
      | false =>
          rw [processDocs_cons_new _ _ _ _ _ _ _ hf]
          obtain ⟨hb, hc⟩ := newDocState_preview_files env cfg pol
            (isDuplicate env cfg.downloadDir fs d).2.1
            (isDuplicate env cfg.downloadDir fs d).2.2
          obtain ⟨b, c⟩ := ih (newDocState env cfg pol true
            (isDuplicate env cfg.downloadDir fs d).2.1
            (isDuplicate env cfg.downloadDir fs d).2.2)
          exact ⟨by rw [b, hb, hfil], by rw [c, hc, hdl]⟩

/-- When the record write succeeds, a fresh or known fingerprint is in
the store right after the dedup check. -/
theorem isDuplicate_recorded (env : Env) (dir : String) (fs : FS)
    (d : Document) (hw : env.writeFails (dedupPath dir (docUid d)) = false) :
    (alookup (dedupPath dir (docUid d))
      (isDuplicate env dir fs d).2.2.dedup).isSome = true := by
  unfold isDuplicate
  cases hv : alookup (dedupPath dir (docUid d)) fs.dedup with
  | some v =>
      split
      next val heq => split <;> simp [hv]
      next heq => simp at heq
  | none => simp [hv, hw, alookup]

/-- The per-document loop never removes dedup records. -/
theorem processDocs_dedup_mono (env : Env) (cfg : SourceCfg)
    (pol : LoopPolicy) (pv : Bool) :
    ∀ (ds : List Document) (fs : FS) (k : String),
      (alookup k fs.dedup).isSome = true →
      (alookup k (processDocs env cfg pol pv fs ds).2.dedup).isSome = true := by
  intro ds
  induction ds with
  | nil => intro fs k h; simpa [processDocs] using h
  | cons d rest ih =>
      intro fs k h
      cases hf : (isDuplicate env cfg.downloadDir fs d).1 with
      | true =>
          rw [processDocs_cons_dup _ _ _ _ _ _ _ hf]
          exact ih _ k (isDuplicate_dedup_mono env cfg.downloadDir fs d k h)
      | false =>
          rw [processDocs_cons_new _ _ _ _ _ _ _ hf]
          apply ih
          rw [newDocState_dedup]
          exact isDuplicate_dedup_mono env cfg.downloadDir fs d k h

/-- Every document returned by the per-document loop carries a unique
id whose dedup record is in the final store, when record writes
succeed. -/
theorem processDocs_records (env : Env) (cfg : SourceCfg) (pol : LoopPolicy)
    (pv : Bool) (hw : ∀ p, env.writeFails p = false) :
    ∀ (ds : List Document) (fs : FS) (d : Document),
      d ∈ (processDocs env cfg pol pv fs ds).1 →
      ∃ u, d.uniqueId? = some u ∧
        (alookup (dedupPath cfg.downloadDir u)
          (processDocs env cfg pol pv fs ds).2.dedup).isSome = true := by
  intro ds
  induction ds with
  | nil => intro fs d h; simp [processDocs] at h
  | cons d0 rest ih =>
      intro fs d hmem
      cases hf : (isDuplicate env cfg.downloadDir fs d0).1 with
      | true =>
          rw [processDocs_cons_dup _ _ _ _ _ _ _ hf] at hmem ⊢
          exact ih _ d hmem
      | false =>
          rw [processDocs_cons_new _ _ _ _ _ _ _ hf] at hmem ⊢
          rcases List.mem_cons.mp hmem with hd | hd
          · refine ⟨docUid d0, ?_, ?_⟩
            · rw [hd, isDuplicate_uid]
            · apply processDocs_dedup_mono
              rw [newDocState_dedup]
              exact isDuplicate_recorded env cfg.downloadDir fs d0 (hw _)
          · exact ih _ d hd

/-- Preview frame of the shared single-keyword fetch shape for
metadata-guarding policies. -/
theorem searchFetchSingle_preview_frame (env : Env) (cfg : SourceCfg)
    (pol : LoopPolicy) (label : String) (resp : Except String (List Document))
    (hm : pol.metaAlways = false) (fs : FS) :
    (searchFetchSingle env cfg pol label resp true fs).2.metadata = fs.metadata ∧
    (searchFetchSingle env cfg pol label resp true fs).2.files = fs.files ∧
    (searchFetchSingle env cfg pol label resp true fs).2.downloads = fs.downloads := by
  unfold searchFetchSingle
  cases resp with
  | error e => simp [addNet]
  | ok docs =>
      obtain ⟨a, b, c⟩ := processDocs_preview_frame env cfg pol hm docs
        (addNet fs label)
      exact ⟨a.trans rfl, b.trans rfl, c.trans rfl⟩

/-- Preview file frame of the shared single-keyword fetch shape for
every policy. -/
theorem searchFetchSingle_preview_files (env : Env) (cfg : SourceCfg)
    (pol : LoopPolicy) (label : String) (resp : Except String (List Document))
    (fs : FS) :
    (searchFetchSingle env cfg pol label resp true fs).2.files = fs.files ∧
    (searchFetchSingle env cfg pol label resp true fs).2.downloads = fs.downloads := by
  unfold searchFetchSingle
  cases resp with
  | error e => simp [addNet]
  | ok docs =>
      obtain ⟨b, c⟩ := processDocs_preview_files env cfg pol docs (addNet fs label)
      exact ⟨b.trans rfl, c.trans rfl⟩

/-- Dedup-recording of the shared single-keyword fetch shape. -/
theorem searchFetchSingle_records (env : Env) (cfg : SourceCfg)
    (pol : LoopPolicy) (label : String) (resp : Except String (List Document))
    (pv : Bool) (hw : ∀ p, env.writeFails p = false) (fs : FS) (d : Document)
    (hmem : d ∈ (searchFetchSingle env cfg pol label resp pv fs).1) :
    ∃ u, d.uniqueId? = some u ∧
      (alookup (dedupPath cfg.downloadDir u)
        (searchFetchSingle env cfg pol label resp pv fs).2.dedup).isSome = true := by
  unfold searchFetchSingle at hmem ⊢
  cases resp with
  | error e => simp at hmem
  | ok docs => exact processDocs_records env cfg pol pv hw docs _ d hmem

/-- A preview news loop leaves the state untouched. -/
theorem newsLoop_preview_state (env : Env) (cfg : SourceCfg) (kw : String) :
    ∀ (arts : List NewsArticle) (count : Nat) (fs : FS),
      (newsLoop env cfg kw true count fs arts).2 = fs := by
  intro arts
  induction arts with
  | nil => intro count fs; rfl
  | cons a rest ih =>
      intro count fs
      by_cases hc : cfg.maxResults ≤ count
      · rw [newsLoop_capped _ _ _ _ _ _ _ _ hc]
      · by_cases hm : newsMatch kw a = true
        · rw [newsLoop_cons_hit _ _ _ _ _ _ _ _ hc hm]
          have hh : newsHitState env cfg kw true count a fs = fs := by
            simp [newsHitState]
          rw [hh]
          exact ih (count + 1) fs
        · rw [newsLoop_cons_skip _ _ _ _ _ _ _ _ hc hm]
          exact ih count fs

/-- The news loop never touches the dedup store. -/
theorem newsLoop_dedup (env : Env) (cfg : SourceCfg) (kw : String)
    (pv : Bool) :
    ∀ (arts : List NewsArticle) (count : Nat) (fs : FS),
      (newsLoop env cfg kw pv count fs arts).2.dedup = fs.dedup := by
  intro arts
  induction arts with
  | nil => intro count fs; rfl
  | cons a rest ih =>
      intro count fs
      by_cases hc : cfg.maxResults ≤ count
      · rw [newsLoop_capped _ _ _ _ _ _ _ _ hc]
      · by_cases hm : newsMatch kw a = true
        · rw [newsLoop_cons_hit _ _ _ _ _ _ _ _ hc hm]
          rw [ih (count + 1) _]
          exact newsHitState_dedup env cfg kw pv count a fs
        · rw [newsLoop_cons_skip _ _ _ _ _ _ _ _ hc hm]
          exact ih count fs

/-- C4 counterexample: `ArxivSource._fetch_single_keyword` writes the
metadata file even in preview mode (the save sits outside the preview
guard), refuting the claim for every source fetcher. -/
theorem c4_arxiv_preview_writes_metadata :
    (arxivFetchSingle envArxiv1 cfg10 "k" true {}).2.metadata ≠ [] := by
  decide

/-- C4 amended: in preview mode, `ScholarSource` writes no metadata
file, creates no file and attempts no download, still records a dedup
entry for every returned document and still returns the same document
list as a non-preview run; `ArxivSource` likewise suppresses the
artifact download, records dedup entries and returns the full list,
but still writes the metadata files; `NewsSource` writes nothing in
preview and returns the full list, but records no dedup entries in any
mode.  Record writes are assumed to succeed. -/
theorem c4_preview_mode (env : Env) (cfg : SourceCfg)
    (hw : ∀ p, env.writeFails p = false) :
    (∀ (kw : String) (fs : FS),
      (scholarFetchSingle env cfg kw true fs).2.metadata = fs.metadata ∧
      (scholarFetchSingle env cfg kw true fs).2.files = fs.files ∧
      (scholarFetchSingle env cfg kw true fs).2.downloads = fs.downloads ∧
      (scholarFetchSingle env cfg kw true fs).1 =
        (scholarFetchSingle env cfg kw false fs).1 ∧
      (∀ d ∈ (scholarFetchSingle env cfg kw true fs).1, ∃ u,
        d.uniqueId? = some u ∧
        (alookup (dedupPath cfg.downloadDir u)
          (scholarFetchSingle env cfg kw true fs).2.dedup).isSome = true)) ∧
    (∀ (kw : String) (fs : FS),
      (arxivFetchSingle env cfg kw true fs).2.files = fs.files ∧
      (arxivFetchSingle env cfg kw true fs).2.downloads = fs.downloads ∧
      (arxivFetchSingle env cfg kw true fs).1 =
        (arxivFetchSingle env cfg kw false fs).1 ∧
      (∀ d ∈ (arxivFetchSingle env cfg kw true fs).1, ∃ u,
        d.uniqueId? = some u ∧
        (alookup (dedupPath cfg.downloadDir u)
          (arxivFetchSingle env cfg kw true fs).2.dedup).isSome = true)) ∧
    (∀ (kw : String) (fs : FS),
      (newsFetchSingle env cfg kw true fs).2.metadata = fs.metadata ∧
      (newsFetchSingle env cfg kw true fs).2.files = fs.files ∧
      (newsFetchSingle env cfg kw true fs).2.downloads = fs.downloads ∧
      (newsFetchSingle env cfg kw true fs).1 =
        (newsFetchSingle env cfg kw false fs).1 ∧
      (newsFetchSingle env cfg kw true fs).2.dedup = fs.dedup ∧
      (newsFetchSingle env cfg kw false fs).2.dedup = fs.dedup) := by
  refine ⟨?_, ?_, ?_⟩
  · intro kw fs
    obtain ⟨a, b, c⟩ := searchFetchSingle_preview_frame env cfg scholarPolicy
      ("scholar:search:" ++ kw)
      ((env.scholarNet kw).map
        (fun ps => ((ps.take cfg.maxResults).enum).map
          (fun ip => scholarDoc env.now kw ip.1 ip.2))) rfl fs
    refine ⟨a, b, c, ?_, ?_⟩
    · exact (scholarFetchSingle_inv env cfg kw true false fs fs rfl).1
    · intro d hmem
      exact searchFetchSingle_records env cfg scholarPolicy _ _ true hw fs d hmem
  · intro kw fs
    obtain ⟨b, c⟩ := searchFetchSingle_preview_files env cfg arxivPolicy
      ("arxiv:search:" ++ kw)
      ((env.arxivNet kw).map
        (fun ps => (ps.take cfg.maxResults).map (arxivDoc env.now kw))) fs
    refine ⟨b, c, ?_, ?_⟩
    · exact (arxivFetchSingle_inv env cfg kw true false fs fs rfl).1
    · intro d hmem
      exact searchFetchSingle_records env cfg arxivPolicy _ _ true hw fs d hmem
  · intro kw fs
    unfold newsFetchSingle
    cases hn : env.newsNet kw with
    | error e => exact ⟨rfl, rfl, rfl, rfl, rfl, rfl⟩
    | ok arts =>
        have hst := newsLoop_preview_state env cfg kw arts 0
          (addNet fs ("news:crawl:" ++ kw))
        refine ⟨by rw [hst]; rfl, by rw [hst]; rfl, by rw [hst]; rfl, ?_,
          by rw [hst]; rfl, ?_⟩
        · exact (newsLoop_inv env cfg kw arts 0 true false _ _ rfl).1
        · rw [newsLoop_dedup]
          rfl

/-- C4 witness: the amended statement applied at a concrete Scholar
run with one raw record over the empty state. -/
theorem c4_preview_mode_witness :
    (∀ p, envScholar1.writeFails p = false) ∧
    (scholarFetchSingle envScholar1 cfg10 "k" true {}).2.metadata =
      FS.metadata {} ∧
    (scholarFetchSingle envScholar1 cfg10 "k" true {}).1 =
      (scholarFetchSingle envScholar1 cfg10 "k" false {}).1 :=
  ⟨fun _ => rfl,
    ((c4_preview_mode envScholar1 cfg10 (fun _ => rfl)).1 "k" {}).1,
    ((c4_preview_mode envScholar1 cfg10 (fun _ => rfl)).1 "k" {}).2.2.2.1⟩

end DocuFetch
